import Mathlib

/-!
Shallow embedding of the flexster metadata-reconciliation pipeline
(`src/music_fetcher.py`) and of the year-display logic of
`src/pdf_generator.py`, together with theorems settling the frozen
claims about the natural-language specification.

External HTTP services are modelled by an `Env` of response functions:
`none` means the HTTP call raised a transport error
(`requests.RequestException`); a `some` value is the decoded JSON body,
with `Option` fields for keys that may be absent.  Side effects
(`time.sleep`, each HTTP request, `time.time()`, the cached Spotify
token) are threaded through a state `St`; Python exceptions are an
`Except PyExc` layer in which the state (in particular the event trace)
persists across a raised exception, as in Python.
-/

namespace Flexster

/-! ### Python-style string helpers -/

/-- Truthiness of a Python string: `""` is falsy. -/
def pyTruthyS (s : String) : Bool := s ≠ ""

/-- Truthiness of a Python value that is `None` or a string. -/
def pyTruthyO (o : Option String) : Bool :=
  match o with
  | none => false
  | some s => s ≠ ""

def strContainsAux (needle : List Char) : List Char → Bool
  | [] => needle.isEmpty
  | c :: rest => needle.isPrefixOf (c :: rest) || strContainsAux needle rest

/-- Python `needle in hay` on strings (substring containment). -/
def strContains (hay needle : String) : Bool :=
  strContainsAux needle.toList hay.toList

/-- Python `s.replace(pat, rep)` on character lists: replace each
non-overlapping occurrence, left to right.  The fuel argument (the
input length suffices, each step consumes at least one character) keeps
the recursion structural. -/
def pyReplaceAux (pat rep : List Char) : Nat → List Char → List Char
  | 0, l => l
  | _ + 1, [] => []
  | fuel + 1, c :: rest =>
    if pat ≠ [] && pat.isPrefixOf (c :: rest) then
      rep ++ pyReplaceAux pat rep fuel ((c :: rest).drop pat.length)
    else c :: pyReplaceAux pat rep fuel rest

/-- Python `s.replace(pat, rep)` (all call sites use a nonempty
pattern). -/
def pyReplace (s pat rep : String) : String :=
  String.mk (pyReplaceAux pat.toList rep.toList s.toList.length s.toList)

/-- Python `s.split(sep)` for a nonempty string separator: split at
every non-overlapping occurrence, keeping empty pieces. -/
def pySplitOnAux (sep : List Char) : Nat → List Char → List Char → List (List Char)
  | 0, acc, l => [acc.reverse ++ l]
  | _ + 1, acc, [] => [acc.reverse]
  | fuel + 1, acc, c :: rest =>
    if sep ≠ [] && sep.isPrefixOf (c :: rest) then
      acc.reverse :: pySplitOnAux sep fuel [] ((c :: rest).drop sep.length)
    else pySplitOnAux sep fuel (c :: acc) rest

def pySplitOn (s sep : String) : List String :=
  (pySplitOnAux sep.toList s.toList.length [] s.toList).map String.mk

/-- `re.split` on a character class: split at every matching character,
keeping empty pieces. -/
def pySplitCharAux (p : Char → Bool) : List Char → List Char → List (List Char)
  | acc, [] => [acc.reverse]
  | acc, c :: rest =>
    if p c then acc.reverse :: pySplitCharAux p [] rest
    else pySplitCharAux p (c :: acc) rest

def pySplitChar (p : Char → Bool) (s : String) : List String :=
  (pySplitCharAux p [] s.toList).map String.mk

/-- Python `s.strip()`: remove leading and trailing whitespace. -/
def pyStrip (s : String) : String :=
  String.mk (((s.toList.dropWhile Char.isWhitespace).reverse.dropWhile
    Char.isWhitespace).reverse)

/-- Python `s.lower()` (per-character lowering). -/
def pyToLower (s : String) : String := String.mk (s.toList.map Char.toLower)

/-- Python `s.split()` with no argument: split on whitespace runs,
discarding empty pieces. -/
def pySplitWs (s : String) : List String :=
  (pySplitChar Char.isWhitespace s).filter (fun p => p ≠ "")

def pyDigitsAux (acc : Nat) : List Char → Option Nat
  | [] => some acc
  | c :: rest =>
    if c.isDigit then pyDigitsAux (acc * 10 + (c.toNat - '0'.toNat)) rest else none

/-- A nonempty all-digit character list, as a number. -/
def pyDigits? (l : List Char) : Option Nat :=
  match l with
  | [] => none
  | l => pyDigitsAux 0 l

/-- Python `int(s)` for strings: optional surrounding whitespace,
optional sign, decimal digits; `none` models `ValueError`.
(Underscore separators and non-ASCII digits are not modelled.) -/
def pyInt? (s : String) : Option Int :=
  match (pyStrip s).toList with
  | '-' :: rest => (pyDigits? rest).map (fun n => -(n : Int))
  | '+' :: rest => (pyDigits? rest).map (fun n => (n : Int))
  | l => (pyDigits? l).map (fun n => (n : Int))

/-! ### Exceptions, events, state, monad -/

/-- The Python exception classes the pipeline distinguishes:
`requests.RequestException` (the only class `fetch_metadata` catches)
versus `KeyError` / `IndexError` from subscripting decoded JSON. -/
inductive PyExc where
  | requestException
  | keyError
  | indexError
deriving DecidableEq, Repr

/-- The remote endpoints the pipeline talks to. -/
inductive Service where
  | itunes
  | mbRecordingSearch
  | mbRecordingDetails
  | mbWork
  | mbWorkSearch
  | wikiSearch
  | wikiProps
  | wdEntity
  | spotifyAuth
  | spotifySearch
deriving DecidableEq, Repr

/-- Observable side effects: `time.sleep(ms/1000)` and one HTTP request,
recording the service, the endpoint URL, the main query parameter sent,
and the `limit` parameter (0 when the request has none). -/
inductive Event where
  | sleep (ms : Nat)
  | request (svc : Service) (url : String) (payload : String) (limit : Nat)
deriving DecidableEq, Repr

/-- Mutable state of a run: the `MusicFetcher` instance state
(`spotify_token`, `spotify_token_expires`), a stream of `time.time()`
readings, and the trace of emitted events. -/
structure St where
  spotifyToken : Option String := none
  spotifyTokenExpires : Int := 0
  clock : List Int := []
  trace : List Event := []
deriving DecidableEq, Repr

instance {ε α : Type} [DecidableEq ε] [DecidableEq α] : DecidableEq (Except ε α) :=
  fun x y =>
    match x, y with
    | Except.ok a, Except.ok b =>
      if h : a = b then isTrue (by rw [h])
      else isFalse (fun hh => h (Except.ok.inj hh))
    | Except.error e, Except.error f =>
      if h : e = f then isTrue (by rw [h])
      else isFalse (fun hh => h (Except.error.inj hh))
    | Except.ok _, Except.error _ => isFalse (fun hh => Except.noConfusion hh)
    | Except.error _, Except.ok _ => isFalse (fun hh => Except.noConfusion hh)

/-- The effect monad: state threading plus Python exceptions.  The state
(notably the trace) survives a raised exception, as in Python. -/
def M (α : Type) : Type := St → Except PyExc α × St

instance : Monad M where
  pure a := fun s => (Except.ok a, s)
  bind x f := fun s =>
    match x s with
    | (Except.ok a, s₂) => f a s₂
    | (Except.error e, s₂) => (Except.error e, s₂)

def throwE {α : Type} (e : PyExc) : M α := fun s => (Except.error e, s)

/-- Python `try ... except`: run `x`; on an exception, run the handler
from the state reached at the raise point. -/
def tryCatchM {α : Type} (x : M α) (h : PyExc → M α) : M α := fun s =>
  match x s with
  | (Except.ok a, s₂) => (Except.ok a, s₂)
  | (Except.error e, s₂) => h e s₂

def logEvent (ev : Event) : M Unit := fun s =>
  (Except.ok (), { s with trace := s.trace ++ [ev] })

/-- `time.sleep` (duration in milliseconds). -/
def sleepEv (ms : Nat) : M Unit := logEvent (Event.sleep ms)

/-- One HTTP call: emits a request event; `none` (transport error /
HTTP error status / undecodable body) raises `requests.RequestException`. -/
def netGet {α : Type} (svc : Service) (url payload : String) (limit : Nat)
    (resp : Option α) : M α :=
  fun s =>
    let s₂ := { s with trace := s.trace ++ [Event.request svc url payload limit] }
    match resp with
    | some v => (Except.ok v, s₂)
    | none => (Except.error PyExc.requestException, s₂)

/-- `time.sleep(ms/1000)` immediately followed by an HTTP call, as at
every MusicBrainz / Wikipedia / Wikidata call site. -/
def rateLimitedGet {α : Type} (ms : Nat) (svc : Service) (url payload : String)
    (limit : Nat) (resp : Option α) : M α := do
  sleepEv ms
  netGet svc url payload limit resp

def getM : M St := fun s => (Except.ok s, s)

/-- `time.time()`: pops the next clock reading. -/
def readClock : M Int := fun s =>
  (Except.ok (s.clock.headD 0), { s with clock := s.clock.tail })

def setTok (t : Option String) : M Unit := fun s =>
  (Except.ok (), { s with spotifyToken := t })

def setExp (e : Int) : M Unit := fun s =>
  (Except.ok (), { s with spotifyTokenExpires := e })

/-! ### Service response shapes (decoded JSON bodies) -/

structure ItunesResult where
  trackName : Option String := none
  artistName : Option String := none
  collectionName : Option String := none
  primaryGenreName : Option String := none
  releaseDate : Option String := none
  composer : Option String := none
  trackViewUrl : Option String := none
deriving DecidableEq, Repr

/-- iTunes search response; `none` fields model an absent key, whose
direct subscripting in the source raises `KeyError`. -/
structure ItunesResponse where
  resultCount : Option Int := none
  results : Option (List ItunesResult) := none
deriving DecidableEq, Repr

structure MBRecordingHit where
  id : String := ""
deriving DecidableEq, Repr

structure MBRecordingSearchResp where
  recordings : List MBRecordingHit := []
deriving DecidableEq, Repr

/-- One MusicBrainz relation; fields cover both the recording-relations
and the work-relations uses. -/
structure MBRel where
  targetType : Option String := none
  workId : String := ""
  relType : Option String := none
  artistName : String := ""
  begin : Option String := none
deriving DecidableEq, Repr

structure MBRecordingDetails where
  relations : List MBRel := []
deriving DecidableEq, Repr

structure MBWorkDetails where
  relations : List MBRel := []
  lifeSpanBegin : Option String := none
deriving DecidableEq, Repr

structure MBWorkHit where
  id : String := ""
deriving DecidableEq, Repr

structure MBWorkSearchResp where
  works : List MBWorkHit := []
deriving DecidableEq, Repr

structure WikiPage where
  title : Option String := none
  description : Option String := none
  excerpt : Option String := none
  key : Option String := none
deriving DecidableEq, Repr

structure WikiSearchResp where
  pages : List WikiPage := []
deriving DecidableEq, Repr

structure WikiPageProps where
  wikibaseItem : Option String := none
deriving DecidableEq, Repr

/-- A Wikidata statement; `time` is the value reached by
`snaks[0]["mainsnak"]["datavalue"]["value"]["time"]`, `none` when any
link of that chain is missing (the `KeyError` is swallowed and yields
`None` in the source). -/
structure Snak where
  time : Option String := none
deriving DecidableEq, Repr

structure WdEntity where
  claims : List (String × List Snak) := []
deriving DecidableEq, Repr

structure WdEntityResp where
  entities : List (String × WdEntity) := []
deriving DecidableEq, Repr

structure SpotifyTokenResp where
  accessToken : Option String := none
  expiresIn : Option Int := none
deriving DecidableEq, Repr

structure SpotifyTrack where
  id : Option String := none
  url : Option String := none
  name : Option String := none
  artistNames : Option (List String) := none
  albumName : Option String := none
deriving DecidableEq, Repr

structure SpotifyTracksResp where
  items : List SpotifyTrack := []
deriving DecidableEq, Repr

structure SpotifyData where
  id : String
  url : String
  name : String
  artists : String
  album : String
deriving DecidableEq, Repr

/-- The external world: responses of each remote service.  `none` means
the HTTP call raises `requests.RequestException`.  Spotify search also
receives the bearer token in use. -/
structure Env where
  itunes : String → Option ItunesResponse
  mbRecordingSearch : String → Option MBRecordingSearchResp
  mbRecordingDetails : String → Option MBRecordingDetails
  mbWork : String → Option MBWorkDetails
  mbWorkSearch : String → Option MBWorkSearchResp
  wikiSearch : String → Option WikiSearchResp
  wikiPageProps : String → Option (List (String × WikiPageProps))
  wdEntity : String → Option WdEntityResp
  spotifyAuth : Option SpotifyTokenResp := none
  spotifySearch : String → String → Option SpotifyTracksResp := fun _ _ => none
  spotifyClientId : String := ""
  spotifyClientSecret : String := ""

def itunesSearchURL : String := "https://itunes.apple.com/search"
def mbRecordingSearchURL : String := "https://musicbrainz.org/ws/2/recording"
def mbRecordingDetailsURL (id : String) : String :=
  "https://musicbrainz.org/ws/2/recording/" ++ id
def mbWorkURL (id : String) : String := "https://musicbrainz.org/ws/2/work/" ++ id
def mbWorkSearchURL : String := "https://musicbrainz.org/ws/2/work"
def wikiSearchURL : String := "https://api.wikimedia.org/core/v1/wikipedia/en/search/page"
def wikiApiURL : String := "https://en.wikipedia.org/w/api.php"
def wdEntityURL (id : String) : String :=
  "https://www.wikidata.org/wiki/Special:EntityData/" ++ id ++ ".json"
def spotifyAuthURL : String := "https://accounts.spotify.com/api/token"
def spotifySearchURL : String := "https://api.spotify.com/v1/search"

/-! ### `fetch_work_details_from_mb`: pure query-building helpers -/

/-- `re.split(r'[,&]', artist)` then
`[a.strip().replace('"', '') for a in artists if a.strip()]`. -/
def splitArtists (artist : String) : List String :=
  ((pySplitChar (fun c => c = ',' || c = '&') artist).filter
    fun a => pyStrip a ≠ "").map fun a => pyReplace (pyStrip a) "\"" ""

/-- The `artist:("A" OR "B")` clause, or `""` when no artist part remains. -/
def artistQueryOf (artist : String) : String :=
  let artists := splitArtists artist
  if artists.isEmpty then ""
  else "artist:(" ++ String.intercalate " OR " (artists.map fun a => "\"" ++ a ++ "\"") ++ ")"

def dropThroughRparen : List Char → List Char
  | [] => []
  | c :: rest => if c = ')' then rest else dropThroughRparen rest

theorem dropThroughRparen_length_le (l : List Char) :
    (dropThroughRparen l).length ≤ l.length := by
  induction l with
  | nil => simp [dropThroughRparen]
  | cons c rest ih =>
    simp only [dropThroughRparen]
    split
    · simp
    · exact Nat.le_succ_of_le ih

/-- `re.sub(r'\(.*?\)', '', s)`: each `(` with a later `)` opens a
minimal span that is removed; a `(` with no following `)` is kept.
(A newline between the parentheses, which `.` would not match, cannot
occur in a track title and is not modelled.) -/
def stripParensAux : Nat → List Char → List Char
  | 0, l => l
  | _ + 1, [] => []
  | fuel + 1, c :: rest =>
    if c = '(' && rest.contains ')' then stripParensAux fuel (dropThroughRparen rest)
    else c :: stripParensAux fuel rest

def stripParens (s : String) : String :=
  String.mk (stripParensAux s.toList.length s.toList)

/-- The up-to-three title variants: the title with `"` removed; the
portion after the first `": "` when one occurs; the parenthesis-stripped
title when nonempty and different. -/
def titleVariants (title : String) : List String :=
  let cleanTitle := pyReplace title "\"" ""
  let pieces := pySplitOn cleanTitle ": "
  let afterColon := if pieces.length > 1 then [String.intercalate ": " pieces.tail] else []
  let baseTitle := pyStrip (stripParens cleanTitle)
  let stripped := if baseTitle ≠ "" && baseTitle ≠ cleanTitle then [baseTitle] else []
  [cleanTitle] ++ afterColon ++ stripped

/-- `f'recording:"{t_variant}" AND {artist_query}'`. -/
def luceneQuery (variant artistQuery : String) : String :=
  "recording:\"" ++ variant ++ "\" AND " ++ artistQuery

/-! ### `fetch_work_details_from_mb` -/

/-- The dict `{"composer": ..., "year": ...}` the MusicBrainz lookup
returns on success. -/
structure MBComposerYear where
  composer : String
  year : Option String := none
deriving DecidableEq, Repr

/-- Body of one iteration of the title-variant loop (one search, and on
a hit the recording-details and work-details requests); `none` is the
`continue` outcome. -/
def mbVariantBody (env : Env) (artistQuery t : String) : M (Option MBComposerYear) := do
  let data ← rateLimitedGet 1200 Service.mbRecordingSearch mbRecordingSearchURL (luceneQuery t artistQuery) 1
    (env.mbRecordingSearch (luceneQuery t artistQuery))
  match data.recordings with
  | [] => pure none
  | recording :: _ => do
    let recordingId := recording.id
    let recDetails ← rateLimitedGet 1200 Service.mbRecordingDetails (mbRecordingDetailsURL recordingId) "" 0
      (env.mbRecordingDetails recordingId)
    match recDetails.relations.find? (fun rel => rel.targetType = some "work") with
    | none => pure none
    | some wrel => do
      let workDetails ← rateLimitedGet 1200 Service.mbWork (mbWorkURL wrel.workId) "" 0
        (env.mbWork wrel.workId)
      let composerName :=
        (workDetails.relations.find? fun rel => rel.relType = some "composer").map
          (fun rel => rel.artistName)
      let workYear₀ : Option String :=
        if pyTruthyO workDetails.lifeSpanBegin then
          some ((workDetails.lifeSpanBegin.getD "").take 4)
        else none
      let workYear :=
        match workDetails.relations.find?
            (fun rel => rel.relType = some "performance" && rel.begin.isSome) with
        | some rel => some ((rel.begin.getD "").take 4)
        | none => workYear₀
      match composerName with
      | some c => pure (some { composer := c, year := workYear })
      | none => pure none

/-- The `for t_variant in title_variants` loop; each iteration's
exceptions are caught (`except Exception: ... continue`). -/
def mbTryVariants (env : Env) (artistQuery : String) :
    List String → M (Option MBComposerYear)
  | [] => pure none
  | t :: rest => do
    let r ← tryCatchM (mbVariantBody env artistQuery t) (fun _ => pure none)
    match r with
    | some ans => pure (some ans)
    | none => mbTryVariants env artistQuery rest

/-- Was the free-text fallback candidate's composer accepted?  Either
the composer name occurs in the iTunes artist string, or a name part
longer than 3 characters occurs in the original query
(case-insensitively). -/
def mbFallbackAccepts (artist originalQuery composerName : String) : Bool :=
  (pyTruthyS artist && strContains (pyToLower artist) (pyToLower composerName)) ||
    (pySplitWs composerName).any
      (fun part => part.length > 3 && strContains (pyToLower originalQuery) (pyToLower part))

/-- The `for work in data.get("works", [])` loop of the free-text
fallback. -/
def mbFallbackWorks (env : Env) (artist originalQuery : String) :
    List MBWorkHit → M (Option MBComposerYear)
  | [] => pure none
  | work :: rest => do
    let workDetails ← rateLimitedGet 1200 Service.mbWork (mbWorkURL work.id) "" 0 (env.mbWork work.id)
    match workDetails.relations.find? (fun rel => rel.relType = some "composer") with
    | none => mbFallbackWorks env artist originalQuery rest
    | some rel =>
      if mbFallbackAccepts artist originalQuery rel.artistName then
        pure (some { composer := rel.artistName, year := none })
      else
        mbFallbackWorks env artist originalQuery rest

/-- The free-text work-endpoint fallback (one search with `limit: 3`,
then the candidate loop), with its enclosing `try ... except`. -/
def mbFallback (env : Env) (artist originalQuery : String) : M (Option MBComposerYear) :=
  tryCatchM
    (do
      let data ← rateLimitedGet 1200 Service.mbWorkSearch mbWorkSearchURL originalQuery 3
        (env.mbWorkSearch originalQuery)
      mbFallbackWorks env artist originalQuery data.works)
    (fun _ => pure none)

/-- `MusicFetcher.fetch_work_details_from_mb`. -/
def fetchWorkDetailsFromMB (env : Env) (title artist : String)
    (originalQuery : Option String) : M (Option MBComposerYear) := do
  let artistQuery := artistQueryOf artist
  let r ← if artistQuery = "" then pure none
          else mbTryVariants env artistQuery (titleVariants title)
  match r with
  | some ans => pure (some ans)
  | none =>
    if pyTruthyO originalQuery then mbFallback env artist (originalQuery.getD "")
    else pure none

/-! ### `fetch_composition_year_from_wikidata` -/

def genreKeywords : List String :=
  ["opera", "symphony", "composition", "song", "album", "musical work"]

def excerptKeywords : List String := ["composed", "composition", "written", "album"]

/-- `score_page`: +3 for a genre keyword in the description, +2 for a
composition keyword in the excerpt, +4 for each composer name part
longer than 3 characters found in description, title or excerpt. -/
def scorePage (composerLc : Option String) (page : WikiPage) : Int :=
  let desc := pyToLower (page.description.getD "")
  let titleText := pyToLower (page.title.getD "")
  let excerpt := pyToLower (page.excerpt.getD "")
  let s₁ : Int := if genreKeywords.any (fun kw => strContains desc kw) then 3 else 0
  let s₂ : Int := if excerptKeywords.any (fun kw => strContains excerpt kw) then 2 else 0
  let s₃ : Int :=
    match composerLc with
    | none => 0
    | some cl =>
      4 * ((pySplitWs cl).filter (fun part =>
        part.length > 3 &&
          (strContains desc part || strContains titleText part ||
            strContains excerpt part))).length
  s₁ + s₂ + s₃

/-- `sorted(pages, key=score_page, reverse=True)`: a stable sort,
descending by score. -/
def sortedPages (composerLc : Option String) (pages : List WikiPage) : List WikiPage :=
  List.insertionSort (fun a b => scorePage composerLc b ≤ scorePage composerLc a) pages

def lookupKey {α : Type} (l : List (String × α)) (k : String) : Option α :=
  (l.find? (fun p => p.1 = k)).map (fun p => p.2)

/-- `extract_year`: first statement's time value, all leading `+` then
all leading `-` stripped, truncated to 4 characters, kept only when it
is a nonempty digit string. -/
def extractYear (claims : List (String × List Snak)) (prop : String) : Option String :=
  match lookupKey claims prop with
  | none => none
  | some [] => none
  | some (snak :: _) =>
    match snak.time with
    | none => none
    | some timeStr =>
      let year := ((timeStr.toList.dropWhile (fun c => c = '+')).dropWhile
        (fun c => c = '-')).take 4
      if year ≠ [] && year.all Char.isDigit then some (String.mk year) else none

/-- `MusicFetcher.fetch_composition_year_from_wikidata`. -/
def fetchCompositionYearFromWikidata (env : Env) (title composer : String) :
    M (Option String) :=
  tryCatchM
    (if title = "" then pure none
     else do
      let searchQuery := if pyTruthyS composer then composer ++ " " ++ title else title
      let data ← rateLimitedGet 1000 Service.wikiSearch wikiSearchURL searchQuery 5 (env.wikiSearch searchQuery)
      match data.pages with
      | [] => pure none
      | page₀ :: restPages => do
        let pages := page₀ :: restPages
        let composerLc := if pyTruthyS composer then some (pyToLower composer) else none
        let pagesSorted := sortedPages composerLc pages
        let bestPage := if pagesSorted.isEmpty then pages.headD {} else pagesSorted.headD {}
        if !pyTruthyO bestPage.key then pure none
        else do
          let wikipediaTitle := pyReplace (bestPage.key.getD "") "_" " "
          let props ← rateLimitedGet 1000 Service.wikiProps wikiApiURL wikipediaTitle 0
            (env.wikiPageProps wikipediaTitle)
          match props.find? (fun pr => pyTruthyO pr.2.wikibaseItem) with
          | none => pure none
          | some pr => do
            let entityId := pr.2.wikibaseItem.getD ""
            let entityData ← rateLimitedGet 1000 Service.wdEntity (wdEntityURL entityId) "" 0
              (env.wdEntity entityId)
            match entityData.entities.find? (fun e => e.1 = entityId) with
            | none => pure none
            | some e =>
              match extractYear e.2.claims "P571" with
              | some y => pure (some y)
              | none => pure (extractYear e.2.claims "P577"))
    (fun _ => pure none)

/-! ### Spotify lookup -/

/-- `MusicFetcher._get_spotify_token`. -/
def getSpotifyToken (env : Env) : M (Option String) := do
  let st ← getM
  let cached ←
    if pyTruthyO st.spotifyToken then do
      let now ← readClock
      if now < st.spotifyTokenExpires then pure st.spotifyToken else pure none
    else pure none
  match cached with
  | some tok => pure (some tok)
  | none =>
    if !pyTruthyS env.spotifyClientId || !pyTruthyS env.spotifyClientSecret then pure none
    else
      tryCatchM
        (do
          let tokenData ← netGet Service.spotifyAuth spotifyAuthURL "" 0 env.spotifyAuth
          match tokenData.accessToken with
          | none => throwE PyExc.keyError
          | some tok => do
            setTok (some tok)
            let now ← readClock
            match tokenData.expiresIn with
            | none => throwE PyExc.keyError
            | some exp => do
              setExp (now + exp - 60)
              pure (some tok))
        (fun _ => pure none)

/-- `MusicFetcher.fetch_spotify_metadata`. -/
def fetchSpotifyMetadata (env : Env) (query : String) : M (Option SpotifyData) := do
  let token ← getSpotifyToken env
  if !pyTruthyO token then pure none
  else
    tryCatchM
      (do
        let data ← netGet Service.spotifySearch spotifySearchURL query 1 (env.spotifySearch (token.getD "") query)
        match data.items with
        | [] => pure none
        | track :: _ =>
          match track.id, track.url, track.name, track.artistNames, track.albumName with
          | some i, some u, some n, some arts, some alb =>
            pure (some { id := i, url := u, name := n,
                         artists := String.intercalate ", " arts, album := alb })
          | _, _, _, _, _ => throwE PyExc.keyError)
      (fun _ => pure none)

/-! ### `fetch_metadata` and `fetch_all` -/

/-- The per-track record `fetch_metadata` builds (all values strings,
as in the Python dict). -/
structure TrackRecord where
  query : String
  title : String
  artist : String
  composer : String
  album : String
  year : String
  recording_year : String
  composition_year : String
  genre : String
  apple_link : String
  spotify_link : String
deriving DecidableEq, Repr

/-- `MusicFetcher.fetch_metadata`: the outer `try` catches only
`requests.RequestException`; `KeyError` / `IndexError` from
subscripting the catalog response propagate. -/
def fetchMetadata (env : Env) (query : String) : M (Option TrackRecord) :=
  tryCatchM
    (do
      let data ← netGet Service.itunes itunesSearchURL query 1 (env.itunes query)
      match data.resultCount with
      | none => throwE PyExc.keyError
      | some rc =>
        if rc = 0 then pure none
        else
          match data.results with
          | none => throwE PyExc.keyError
          | some [] => throwE PyExc.indexError
          | some (result :: _) => do
            let releaseDate := result.releaseDate.getD ""
            let recordingYear := if releaseDate ≠ "" then releaseDate.take 4 else "Unknown"
            let title := result.trackName.getD "Unknown Title"
            let artist := result.artistName.getD "Unknown Artist"
            let composer := result.composer
            let mbData ← fetchWorkDetailsFromMB env title artist (some query)
            let finalComposer :=
              match mbData with
              | none => composer
              | some mb => if pyTruthyO composer then composer else some mb.composer
            let compositionYear₀ : Option String :=
              match mbData with
              | none => none
              | some mb => if pyTruthyO mb.year then mb.year else none
            let compositionYear ←
              if !pyTruthyO compositionYear₀ then
                fetchCompositionYearFromWikidata env title
                  (if pyTruthyO finalComposer then finalComposer.getD "" else artist)
              else pure compositionYear₀
            let spotifyLink ←
              if pyTruthyS env.spotifyClientId &&
                  env.spotifyClientId ≠ "YOUR_SPOTIFY_CLIENT_ID" then do
                let spotifyData ← fetchSpotifyMetadata env query
                pure (match spotifyData with | some sd => sd.url | none => "")
              else pure ""
            pure (some {
              query := query
              title := title
              artist := artist
              composer := if pyTruthyO finalComposer then finalComposer.getD ""
                          else "Unknown Composer"
              album := result.collectionName.getD "Unknown Album"
              year := if pyTruthyO compositionYear then compositionYear.getD ""
                      else recordingYear
              recording_year := recordingYear
              composition_year := compositionYear.getD ""
              genre := result.primaryGenreName.getD "Unknown Genre"
              apple_link := result.trackViewUrl.getD ""
              spotify_link := spotifyLink }))
    (fun e =>
      match e with
      | PyExc.requestException => pure none
      | e => throwE e)

/-- `MusicFetcher.fetch_all`. -/
def fetchAll (env : Env) : List String → M (List TrackRecord)
  | [] => pure []
  | q :: rest => do
    let data ← fetchMetadata env q
    let restResults ← fetchAll env rest
    match data with
    | some d => pure (d :: restResults)
    | none => pure restResults

/-! ### `PDFGenerator.create_pdf`: the year pair shown on a card -/

/-- The composition/recording year pair after the swap of
`create_pdf` (lines 132–145): when both are nonempty and both parse as
integers with composition later than recording, they are swapped;
a `ValueError` from `int()` leaves them as they are. -/
def pdfYearPair (item : TrackRecord) : String × String :=
  let compositionYear := item.composition_year
  let recordingYear := item.recording_year
  if compositionYear ≠ "" && recordingYear ≠ "" then
    match pyInt? compositionYear, pyInt? recordingYear with
    | some ci, some ri =>
      if ci > ri then (recordingYear, compositionYear)
      else (compositionYear, recordingYear)
    | _, _ => (compositionYear, recordingYear)
  else (compositionYear, recordingYear)

/-! ### Run lemmas for the effect monad -/

theorem bind_apply {α β : Type} (x : M α) (f : α → M β) (s : St) :
    (x >>= f) s = match x s with
      | (Except.ok a, s₂) => f a s₂
      | (Except.error e, s₂) => (Except.error e, s₂) := rfl

theorem pure_apply {α : Type} (a : α) (s : St) :
    (pure a : M α) s = (Except.ok a, s) := rfl

theorem tryCatchM_apply {α : Type} (x : M α) (h : PyExc → M α) (s : St) :
    tryCatchM x h s = match x s with
      | (Except.ok a, s₂) => (Except.ok a, s₂)
      | (Except.error e, s₂) => h e s₂ := rfl

theorem netGet_ok_apply {α : Type} (svc : Service) (url payload : String)
    (limit : Nat) (v : α) (s : St) :
    netGet svc url payload limit (some v) s =
      (Except.ok v, { s with trace := s.trace ++ [Event.request svc url payload limit] }) := rfl

theorem netGet_none_apply {α : Type} (svc : Service) (url payload : String)
    (limit : Nat) (s : St) :
    netGet svc url payload limit (none : Option α) s =
      (Except.error PyExc.requestException,
        { s with trace := s.trace ++ [Event.request svc url payload limit] }) := rfl

theorem rateLimitedGet_ok_apply {α : Type} (ms : Nat) (svc : Service)
    (url payload : String) (limit : Nat) (v : α) (s : St) :
    rateLimitedGet ms svc url payload limit (some v) s =
      (Except.ok v, { s with trace :=
        s.trace ++ [Event.sleep ms, Event.request svc url payload limit] }) := by
  simp [rateLimitedGet, bind_apply, sleepEv, logEvent, netGet]

theorem rateLimitedGet_none_apply {α : Type} (ms : Nat) (svc : Service)
    (url payload : String) (limit : Nat) (s : St) :
    rateLimitedGet ms svc url payload limit (none : Option α) s =
      (Except.error PyExc.requestException, { s with trace :=
        s.trace ++ [Event.sleep ms, Event.request svc url payload limit] }) := by
  simp [rateLimitedGet, bind_apply, sleepEv, logEvent, netGet]

/-! ### Totality of the inner lookups (their exceptions are all caught) -/

/-- The computation returns normally from every state: no exception
escapes it. -/
def NoRaise {α : Type} (x : M α) : Prop :=
  ∀ s : St, ∃ a s', x s = (Except.ok a, s')

theorem noRaise_pure {α : Type} (a : α) : NoRaise (pure a : M α) :=
  fun s => ⟨a, s, rfl⟩

theorem noRaise_bind {α β : Type} {x : M α} {f : α → M β}
    (hx : NoRaise x) (hf : ∀ a, NoRaise (f a)) : NoRaise (x >>= f) := by
  intro s
  obtain ⟨a, s₂, hxa⟩ := hx s
  obtain ⟨b, s₃, hfb⟩ := hf a s₂
  refine ⟨b, s₃, ?_⟩
  rw [bind_apply, hxa]
  exact hfb

theorem noRaise_tryCatch {α : Type} (x : M α) {h : PyExc → M α}
    (hh : ∀ e, NoRaise (h e)) : NoRaise (tryCatchM x h) := by
  intro s
  rcases hxs : x s with ⟨r, s₂⟩
  cases r with
  | ok a => exact ⟨a, s₂, by rw [tryCatchM_apply, hxs]⟩
  | error e =>
    obtain ⟨a, s₃, h₃⟩ := hh e s₂
    exact ⟨a, s₃, by rw [tryCatchM_apply, hxs]; exact h₃⟩

theorem noRaise_getM : NoRaise getM := fun s => ⟨s, s, rfl⟩

theorem noRaise_readClock : NoRaise readClock := fun _ => ⟨_, _, rfl⟩

theorem noRaise_mbTryVariants (env : Env) (aq : String) (vs : List String) :
    NoRaise (mbTryVariants env aq vs) := by
  induction vs with
  | nil => exact noRaise_pure none
  | cons t rest ih =>
    simp only [mbTryVariants]
    apply noRaise_bind (noRaise_tryCatch _ (fun _ => noRaise_pure none))
    intro a
    cases a with
    | some ans => exact noRaise_pure _
    | none => exact ih

theorem noRaise_mbFallback (env : Env) (artist oq : String) :
    NoRaise (mbFallback env artist oq) :=
  noRaise_tryCatch _ (fun _ => noRaise_pure none)

theorem noRaise_fetchWorkDetailsFromMB (env : Env) (title artist : String)
    (oq : Option String) : NoRaise (fetchWorkDetailsFromMB env title artist oq) := by
  simp only [fetchWorkDetailsFromMB]
  split
  · apply noRaise_bind (noRaise_pure none)
    intro a
    split
    · exact noRaise_pure _
    · split
      · exact noRaise_mbFallback env _ _
      · exact noRaise_pure none
  · apply noRaise_bind (noRaise_mbTryVariants env _ _)
    intro a
    split
    · exact noRaise_pure _
    · split
      · exact noRaise_mbFallback env _ _
      · exact noRaise_pure none

theorem noRaise_fetchCompositionYearFromWikidata (env : Env) (title composer : String) :
    NoRaise (fetchCompositionYearFromWikidata env title composer) :=
  noRaise_tryCatch _ (fun _ => noRaise_pure none)

theorem noRaise_getSpotifyToken (env : Env) : NoRaise (getSpotifyToken env) := by
  simp only [getSpotifyToken]
  apply noRaise_bind noRaise_getM
  intro st
  split
  · apply noRaise_bind noRaise_readClock
    intro now
    split
    · apply noRaise_bind (noRaise_pure _)
      intro cached
      split
      · exact noRaise_pure _
      · split
        · exact noRaise_pure none
        · exact noRaise_tryCatch _ (fun _ => noRaise_pure none)
    · apply noRaise_bind (noRaise_pure _)
      intro cached
      split
      · exact noRaise_pure _
      · split
        · exact noRaise_pure none
        · exact noRaise_tryCatch _ (fun _ => noRaise_pure none)
  · apply noRaise_bind (noRaise_pure _)
    intro cached
    split
    · exact noRaise_pure _
    · split
      · exact noRaise_pure none
      · exact noRaise_tryCatch _ (fun _ => noRaise_pure none)

theorem noRaise_fetchSpotifyMetadata (env : Env) (query : String) :
    NoRaise (fetchSpotifyMetadata env query) := by
  simp only [fetchSpotifyMetadata]
  apply noRaise_bind (noRaise_getSpotifyToken env)
  intro token
  split
  · exact noRaise_pure none
  · exact noRaise_tryCatch _ (fun _ => noRaise_pure none)

/-! ### The rate-limiting discipline of the event trace -/

/-- Requests to MusicBrainz / Wikipedia / Wikidata: the ones the code
precedes with a `time.sleep`. -/
def isMbWikiSvc : Service → Bool
  | Service.mbRecordingSearch => true
  | Service.mbRecordingDetails => true
  | Service.mbWork => true
  | Service.mbWorkSearch => true
  | Service.wikiSearch => true
  | Service.wikiProps => true
  | Service.wdEntity => true
  | _ => false

/-- An event is admissible after `prev`: a MusicBrainz / Wikipedia /
Wikidata request must directly follow a pause of 1.0 or 1.2 seconds. -/
def eventOK (prev : Option Event) (e : Event) : Bool :=
  match e with
  | Event.request svc _ _ _ =>
    if isMbWikiSvc svc then
      match prev with
      | some (Event.sleep ms) => ms == 1000 || ms == 1200
      | _ => false
    else true
  | _ => true

def pausedFrom (prev : Option Event) : List Event → Bool
  | [] => true
  | e :: rest => eventOK prev e && pausedFrom (some e) rest

/-- Every MusicBrainz / Wikipedia / Wikidata request in the trace is
immediately preceded by a pause of 1.0 or 1.2 seconds. -/
def pausedOK (tr : List Event) : Bool := pausedFrom none tr

/-- The claim as stated for C8: EVERY request (whatever the service) is
immediately preceded by a pause of 1.0–1.2 seconds. -/
def allPausedFrom (prev : Option Event) : List Event → Bool
  | [] => true
  | e :: rest =>
    (match e with
     | Event.request _ _ _ _ =>
       match prev with
       | some (Event.sleep ms) => decide (1000 ≤ ms) && decide (ms ≤ 1200)
       | _ => false
     | _ => true) && allPausedFrom (some e) rest

def allPausedOK (tr : List Event) : Bool := allPausedFrom none tr

def lastO (p : Option Event) : List Event → Option Event
  | [] => p
  | e :: rest => lastO (some e) rest

theorem pausedFrom_append (p : Option Event) (xs ys : List Event) :
    pausedFrom p (xs ++ ys) = (pausedFrom p xs && pausedFrom (lastO p xs) ys) := by
  induction xs generalizing p with
  | nil => simp [pausedFrom, lastO]
  | cons e rest ih => simp [pausedFrom, lastO, ih, Bool.and_assoc]

/-- The computation only appends to the trace, and the appended block
respects the rate-limiting discipline whatever precedes it. -/
def TraceSpec {α : Type} (x : M α) : Prop :=
  ∀ s : St, ∃ Δ : List Event,
    ((x s).2.trace = s.trace ++ Δ) ∧ ∀ p, pausedFrom p Δ = true

theorem ts_pure {α : Type} (a : α) : TraceSpec (pure a : M α) := by
  intro s
  exact ⟨[], by simp [pure_apply], fun p => rfl⟩

theorem ts_throwE {α : Type} (e : PyExc) : TraceSpec (throwE e : M α) := by
  intro s
  exact ⟨[], by simp [throwE], fun p => rfl⟩

theorem ts_getM : TraceSpec getM := by
  intro s
  exact ⟨[], by simp [getM], fun p => rfl⟩

theorem ts_readClock : TraceSpec readClock := by
  intro s
  exact ⟨[], by simp [readClock], fun p => rfl⟩

theorem ts_setTok (t : Option String) : TraceSpec (setTok t) := by
  intro s
  exact ⟨[], by simp [setTok], fun p => rfl⟩

theorem ts_setExp (e : Int) : TraceSpec (setExp e) := by
  intro s
  exact ⟨[], by simp [setExp], fun p => rfl⟩

theorem ts_netGet {α : Type} (svc : Service) (h : isMbWikiSvc svc = false)
    {url payload : String} {limit : Nat} {resp : Option α} :
    TraceSpec (netGet svc url payload limit resp) := by
  intro s
  refine ⟨[Event.request svc url payload limit], ?_, ?_⟩
  · cases resp with
    | some v => simp [netGet]
    | none => simp [netGet]
  · intro p
    simp [pausedFrom, eventOK, h]

theorem ts_rateLimitedGet {α : Type} (ms : Nat) (h : ms = 1000 ∨ ms = 1200)
    {svc : Service} {url payload : String} {limit : Nat} {resp : Option α} :
    TraceSpec (rateLimitedGet ms svc url payload limit resp) := by
  intro s
  refine ⟨[Event.sleep ms, Event.request svc url payload limit], ?_, ?_⟩
  · cases resp with
    | some v => rw [rateLimitedGet_ok_apply]
    | none => rw [rateLimitedGet_none_apply]
  · intro p
    rcases h with h | h <;> simp [pausedFrom, eventOK, h]

theorem ts_bind {α β : Type} {x : M α} {f : α → M β}
    (hx : TraceSpec x) (hf : ∀ a, TraceSpec (f a)) : TraceSpec (x >>= f) := by
  intro s
  obtain ⟨Δ₁, h₁, hp₁⟩ := hx s
  rcases hxs : x s with ⟨r, s₂⟩
  rw [hxs] at h₁
  cases r with
  | error e =>
    refine ⟨Δ₁, ?_, hp₁⟩
    rw [bind_apply, hxs]
    exact h₁
  | ok a =>
    obtain ⟨Δ₂, h₂, hp₂⟩ := hf a s₂
    refine ⟨Δ₁ ++ Δ₂, ?_, ?_⟩
    · rw [bind_apply, hxs]
      simp only at h₂ ⊢
      rw [h₂, h₁, List.append_assoc]
    · intro p
      rw [pausedFrom_append, hp₁ p, hp₂ _]
      rfl

theorem ts_tryCatch {α : Type} {x : M α} {h : PyExc → M α}
    (hx : TraceSpec x) (hh : ∀ e, TraceSpec (h e)) : TraceSpec (tryCatchM x h) := by
  intro s
  obtain ⟨Δ₁, h₁, hp₁⟩ := hx s
  rcases hxs : x s with ⟨r, s₂⟩
  rw [hxs] at h₁
  cases r with
  | ok a =>
    refine ⟨Δ₁, ?_, hp₁⟩
    rw [tryCatchM_apply, hxs]
    exact h₁
  | error e =>
    obtain ⟨Δ₂, h₂, hp₂⟩ := hh e s₂
    refine ⟨Δ₁ ++ Δ₂, ?_, ?_⟩
    · rw [tryCatchM_apply, hxs]
      rw [h₂, h₁, List.append_assoc]
    · intro p
      rw [pausedFrom_append, hp₁ p, hp₂ _]
      rfl

theorem ts_mbVariantBody (env : Env) (aq t : String) :
    TraceSpec (mbVariantBody env aq t) := by
  simp only [mbVariantBody]
  apply ts_bind (ts_rateLimitedGet 1200 (Or.inr rfl))
  intro data
  split
  · exact ts_pure none
  · apply ts_bind (ts_rateLimitedGet 1200 (Or.inr rfl))
    intro recDetails
    split
    · exact ts_pure none
    · apply ts_bind (ts_rateLimitedGet 1200 (Or.inr rfl))
      intro workDetails
      split
      · exact ts_pure _
      · exact ts_pure none

theorem ts_mbTryVariants (env : Env) (aq : String) (vs : List String) :
    TraceSpec (mbTryVariants env aq vs) := by
  induction vs with
  | nil => exact ts_pure none
  | cons t rest ih =>
    simp only [mbTryVariants]
    apply ts_bind (ts_tryCatch (ts_mbVariantBody env aq t) (fun _ => ts_pure none))
    intro a
    split
    · exact ts_pure _
    · exact ih

theorem ts_mbFallbackWorks (env : Env) (artist oq : String) (ws : List MBWorkHit) :
    TraceSpec (mbFallbackWorks env artist oq ws) := by
  induction ws with
  | nil => exact ts_pure none
  | cons w rest ih =>
    simp only [mbFallbackWorks]
    apply ts_bind (ts_rateLimitedGet 1200 (Or.inr rfl))
    intro wd
    split
    · exact ih
    · split
      · exact ts_pure _
      · exact ih

theorem ts_mbFallback (env : Env) (artist oq : String) :
    TraceSpec (mbFallback env artist oq) := by
  apply ts_tryCatch _ (fun _ => ts_pure none)
  apply ts_bind (ts_rateLimitedGet 1200 (Or.inr rfl))
  intro data
  exact ts_mbFallbackWorks env artist oq data.works

theorem ts_fetchWorkDetailsFromMB (env : Env) (title artist : String)
    (oq : Option String) : TraceSpec (fetchWorkDetailsFromMB env title artist oq) := by
  simp only [fetchWorkDetailsFromMB]
  split
  · apply ts_bind (ts_pure none)
    intro a
    split
    · exact ts_pure _
    · split
      · exact ts_mbFallback env _ _
      · exact ts_pure none
  · apply ts_bind (ts_mbTryVariants env _ _)
    intro a
    split
    · exact ts_pure _
    · split
      · exact ts_mbFallback env _ _
      · exact ts_pure none

theorem ts_fetchCompositionYearFromWikidata (env : Env) (title composer : String) :
    TraceSpec (fetchCompositionYearFromWikidata env title composer) := by
  have htail : ∀ wikipediaTitle : String, TraceSpec
      ((rateLimitedGet 1000 Service.wikiProps wikiApiURL wikipediaTitle 0
          (env.wikiPageProps wikipediaTitle)) >>= fun props =>
        match props.find? (fun pr => pyTruthyO pr.2.wikibaseItem) with
        | none => pure none
        | some pr =>
          (rateLimitedGet 1000 Service.wdEntity (wdEntityURL (pr.2.wikibaseItem.getD "")) "" 0
            (env.wdEntity (pr.2.wikibaseItem.getD ""))) >>= fun entityData =>
          match entityData.entities.find? (fun e => e.1 = pr.2.wikibaseItem.getD "") with
          | none => pure none
          | some e =>
            match extractYear e.2.claims "P571" with
            | some y => pure (some y)
            | none => pure (extractYear e.2.claims "P577")) := by
    intro wikipediaTitle
    apply ts_bind (ts_rateLimitedGet 1000 (Or.inl rfl))
    intro props
    split
    · exact ts_pure none
    · apply ts_bind (ts_rateLimitedGet 1000 (Or.inl rfl))
      intro entityData
      split
      · exact ts_pure none
      · split
        · exact ts_pure _
        · exact ts_pure _
  have hbp : ∀ bp : WikiPage, TraceSpec
      ((if (!pyTruthyO bp.key) = true then pure none
        else
          (rateLimitedGet 1000 Service.wikiProps wikiApiURL (pyReplace (bp.key.getD "") "_" " ") 0
            (env.wikiPageProps (pyReplace (bp.key.getD "") "_" " "))) >>= fun props =>
          match props.find? (fun pr => pyTruthyO pr.2.wikibaseItem) with
          | none => pure none
          | some pr =>
            (rateLimitedGet 1000 Service.wdEntity (wdEntityURL (pr.2.wikibaseItem.getD "")) "" 0
              (env.wdEntity (pr.2.wikibaseItem.getD ""))) >>= fun entityData =>
            match entityData.entities.find? (fun e => e.1 = pr.2.wikibaseItem.getD "") with
            | none => pure none
            | some e =>
              match extractYear e.2.claims "P571" with
              | some y => pure (some y)
              | none => pure (extractYear e.2.claims "P577")) : M (Option String)) := by
    intro bp
    split
    · exact ts_pure none
    · exact htail _
  apply ts_tryCatch _ (fun _ => ts_pure none)
  split
  · exact ts_pure none
  · apply ts_bind (ts_rateLimitedGet 1000 (Or.inl rfl))
    intro data
    split
    · exact ts_pure none
    · exact hbp _

theorem ts_getSpotifyToken (env : Env) : TraceSpec (getSpotifyToken env) := by
  have hleaf : ∀ cont : Option String, TraceSpec (pure cont : M (Option String)) :=
    fun cont => ts_pure cont
  simp only [getSpotifyToken]
  apply ts_bind ts_getM
  intro st
  have hk : ∀ x : M (Option String), TraceSpec x →
      TraceSpec (x >>= fun cached =>
        match cached with
        | some tok => pure (some tok)
        | none =>
          if (!pyTruthyS env.spotifyClientId || !pyTruthyS env.spotifyClientSecret) = true
          then pure none
          else
            tryCatchM
              (do
                let tokenData ← netGet Service.spotifyAuth spotifyAuthURL "" 0 env.spotifyAuth
                match tokenData.accessToken with
                | none => throwE PyExc.keyError
                | some tok => do
                  setTok (some tok)
                  let now ← readClock
                  match tokenData.expiresIn with
                  | none => throwE PyExc.keyError
                  | some exp => do
                    setExp (now + exp - 60)
                    pure (some tok))
              (fun _ => pure none)) := by
    intro x hx
    apply ts_bind hx
    intro cached
    split
    · exact ts_pure _
    · split
      · exact ts_pure none
      · apply ts_tryCatch _ (fun _ => ts_pure none)
        apply ts_bind (ts_netGet Service.spotifyAuth rfl)
        intro tokenData
        split
        · exact ts_throwE _
        · apply ts_bind (ts_setTok _)
          intro u
          apply ts_bind ts_readClock
          intro now
          split
          · exact ts_throwE _
          · apply ts_bind (ts_setExp _)
            intro u₂
            exact ts_pure _
  split
  · apply ts_bind ts_readClock
    intro now
    split
    · exact hk _ (ts_pure _)
    · exact hk _ (ts_pure _)
  · exact hk _ (ts_pure _)

theorem ts_fetchSpotifyMetadata (env : Env) (query : String) :
    TraceSpec (fetchSpotifyMetadata env query) := by
  simp only [fetchSpotifyMetadata]
  apply ts_bind (ts_getSpotifyToken env)
  intro token
  split
  · exact ts_pure none
  · apply ts_tryCatch _ (fun _ => ts_pure none)
    apply ts_bind (ts_netGet Service.spotifySearch rfl)
    intro data
    split
    · exact ts_pure none
    · split
      · exact ts_pure _
      · exact ts_throwE _

theorem ts_fetchMetadata (env : Env) (query : String) :
    TraceSpec (fetchMetadata env query) := by
  simp only [fetchMetadata]
  apply ts_tryCatch
  · apply ts_bind (ts_netGet Service.itunes rfl)
    intro data
    split
    · exact ts_throwE _
    · split
      · exact ts_pure none
      · split
        · exact ts_throwE _
        · exact ts_throwE _
        · apply ts_bind (ts_fetchWorkDetailsFromMB env _ _ _)
          intro mbData
          split
          · apply ts_bind (ts_fetchCompositionYearFromWikidata env _ _)
            intro compositionYear
            split
            · apply ts_bind (ts_fetchSpotifyMetadata env query)
              intro spotifyData
              apply ts_bind (ts_pure _)
              intro y
              exact ts_pure _
            · apply ts_bind (ts_pure _)
              intro y
              exact ts_pure _
          · apply ts_bind (ts_pure _)
            intro compositionYear
            split
            · apply ts_bind (ts_fetchSpotifyMetadata env query)
              intro spotifyData
              apply ts_bind (ts_pure _)
              intro y
              exact ts_pure _
            · apply ts_bind (ts_pure _)
              intro y
              exact ts_pure _
  · intro e
    split
    · exact ts_pure none
    · exact ts_throwE _

theorem ts_fetchAll (env : Env) (qs : List String) : TraceSpec (fetchAll env qs) := by
  induction qs with
  | nil => exact ts_pure []
  | cons q rest ih =>
    simp only [fetchAll]
    apply ts_bind (ts_fetchMetadata env q)
    intro data
    apply ts_bind ih
    intro restResults
    split
    · exact ts_pure _
    · exact ts_pure _

/-! ### Run characterizations under pinned environments -/

theorem traceSpec_keeps {α : Type} {x : M α} (h : TraceSpec x) (s : St) {e : Event}
    (he : e ∈ s.trace) : e ∈ ((x s).2).trace := by
  obtain ⟨Δ, hΔ, _⟩ := h s
  rw [hΔ]
  exact List.mem_append_left _ he

/-- The composer relation a work-details response yields (`None` when no
composer-typed relation exists). -/
def composerOf (wd : MBWorkDetails) : Option String :=
  (wd.relations.find? (fun rel => rel.relType = some "composer")).map
    (fun rel => rel.artistName)

/-- The work year the variant path computes: a performance relation's
begin date (first 4 chars) overrides the life-span begin date. -/
def workYearOf (wd : MBWorkDetails) : Option String :=
  match wd.relations.find?
      (fun rel => rel.relType = some "performance" && rel.begin.isSome) with
  | some rel => some ((rel.begin.getD "").take 4)
  | none =>
    if pyTruthyO wd.lifeSpanBegin then some ((wd.lifeSpanBegin.getD "").take 4)
    else none

/-- First fallback candidate whose composer passes the acceptance
heuristics; `none` entries are candidates without a composer relation. -/
def firstAccepted (artist oq : String) : List (Option String) → Option MBComposerYear
  | [] => none
  | none :: rest => firstAccepted artist oq rest
  | some c :: rest =>
    if mbFallbackAccepts artist oq c then some { composer := c, year := none }
    else firstAccepted artist oq rest

/-- The events of one title-variant search that finds no recording. -/
def mbSearchEvents (aq : String) (vs : List String) : List Event :=
  vs.flatMap (fun v => [Event.sleep 1200,
    Event.request Service.mbRecordingSearch mbRecordingSearchURL (luceneQuery v aq) 1])

theorem run_mbVariantBody_noHit (env : Env) (aq t : String) (s : St)
    (h : env.mbRecordingSearch (luceneQuery t aq) = some { recordings := [] }) :
    mbVariantBody env aq t s = (Except.ok none,
      { s with trace := s.trace ++ [Event.sleep 1200,
          Event.request Service.mbRecordingSearch mbRecordingSearchURL (luceneQuery t aq) 1] }) := by
  simp only [mbVariantBody, h, bind_apply, rateLimitedGet_ok_apply, pure_apply]

theorem run_mbTryVariants_noHits (env : Env) (aq : String) (vs : List String) (s : St)
    (h : ∀ v ∈ vs, env.mbRecordingSearch (luceneQuery v aq) = some { recordings := [] }) :
    mbTryVariants env aq vs s =
      (Except.ok none, { s with trace := s.trace ++ mbSearchEvents aq vs }) := by
  induction vs generalizing s with
  | nil => simp [mbTryVariants, pure_apply, mbSearchEvents]
  | cons t rest ih =>
    have ht := h t (List.mem_cons_self t rest)
    simp only [mbTryVariants, bind_apply, tryCatchM_apply,
      run_mbVariantBody_noHit env aq t s ht]
    rw [ih _ (fun v hv => h v (List.mem_cons_of_mem t hv))]
    simp [mbSearchEvents, List.flatMap_cons]

/-- The events of the fallback candidate loop with the given per-work
details: one paused work-details request per candidate until (and
including) the first accepted one. -/
def fallbackLoopEvents (artist oq : String) (details : MBWorkHit → MBWorkDetails) :
    List MBWorkHit → List Event
  | [] => []
  | w :: rest =>
    [Event.sleep 1200, Event.request Service.mbWork (mbWorkURL w.id) "" 0] ++
      (match composerOf (details w) with
       | none => fallbackLoopEvents artist oq details rest
       | some c =>
         if mbFallbackAccepts artist oq c then []
         else fallbackLoopEvents artist oq details rest)

/-- A request to the MusicBrainz work-details endpoint. -/
def isWorkDetailReq (e : Event) : Bool :=
  match e with
  | Event.request Service.mbWork _ _ _ => true
  | _ => false

theorem fallbackLoopEvents_count (artist oq : String)
    (details : MBWorkHit → MBWorkDetails) (ws : List MBWorkHit) :
    (fallbackLoopEvents artist oq details ws).countP isWorkDetailReq ≤ ws.length := by
  induction ws with
  | nil => simp [fallbackLoopEvents]
  | cons w rest ih =>
    simp only [fallbackLoopEvents, List.countP_append, List.length_cons]
    have hpair : ([Event.sleep 1200,
        Event.request Service.mbWork (mbWorkURL w.id) "" 0].countP isWorkDetailReq) = 1 := by
      simp [List.countP_cons, isWorkDetailReq]
    rw [hpair]
    have htail : (match composerOf (details w) with
        | none => fallbackLoopEvents artist oq details rest
        | some c =>
          if mbFallbackAccepts artist oq c then []
          else fallbackLoopEvents artist oq details rest).countP isWorkDetailReq ≤
        rest.length := by
      cases hc : composerOf (details w) with
      | none => exact ih
      | some c =>
        by_cases hacc : mbFallbackAccepts artist oq c = true
        · simp [hacc]
        · simp only [hacc, if_false]
          exact ih
    omega

theorem run_mbFallbackWorks (env : Env) (artist oq : String)
    (details : MBWorkHit → MBWorkDetails) (ws : List MBWorkHit) (s : St)
    (hW : ∀ w ∈ ws, env.mbWork w.id = some (details w)) :
    mbFallbackWorks env artist oq ws s =
      (Except.ok (firstAccepted artist oq (ws.map (fun w => composerOf (details w)))),
        { s with trace := s.trace ++ fallbackLoopEvents artist oq details ws }) := by
  induction ws generalizing s with
  | nil => simp [mbFallbackWorks, pure_apply, firstAccepted, fallbackLoopEvents]
  | cons w rest ih =>
    have hw := hW w (List.mem_cons_self w rest)
    simp only [mbFallbackWorks, bind_apply, hw, rateLimitedGet_ok_apply]
    rcases hc : (details w).relations.find? (fun rel => rel.relType = some "composer")
      with _ | rel
    · simp only [List.map_cons, firstAccepted, fallbackLoopEvents, composerOf, hc,
        Option.map_none']
      rw [ih _ (fun v hv => hW v (List.mem_cons_of_mem w hv))]
      simp [composerOf]
    · simp only [List.map_cons, firstAccepted, fallbackLoopEvents, composerOf, hc,
        Option.map_some']
      split
      · simp [pure_apply]
      · rw [ih _ (fun v hv => hW v (List.mem_cons_of_mem w hv))]
        simp [composerOf]

theorem run_mbFallback (env : Env) (artist oq : String)
    (details : MBWorkHit → MBWorkDetails) (wresp : MBWorkSearchResp) (s : St)
    (hS : env.mbWorkSearch oq = some wresp)
    (hW : ∀ w ∈ wresp.works, env.mbWork w.id = some (details w)) :
    mbFallback env artist oq s =
      (Except.ok (firstAccepted artist oq (wresp.works.map (fun w => composerOf (details w)))),
        { s with trace := s.trace ++
            ([Event.sleep 1200, Event.request Service.mbWorkSearch mbWorkSearchURL oq 3] ++
              fallbackLoopEvents artist oq details wresp.works) }) := by
  simp only [mbFallback, tryCatchM_apply, bind_apply, hS, rateLimitedGet_ok_apply]
  rw [run_mbFallbackWorks env artist oq details wresp.works _ hW]
  simp

theorem mem_trace_bind {α β : Type} {x : M α} {f : α → M β} {e : Event} (s : St)
    (hx : e ∈ ((x s).2).trace) (hf : ∀ a, TraceSpec (f a)) :
    e ∈ (((x >>= f) s).2).trace := by
  rw [bind_apply]
  rcases hxs : x s with ⟨r, s₂⟩
  rw [hxs] at hx
  cases r with
  | error ex => exact hx
  | ok a => exact traceSpec_keeps (hf a) s₂ hx

theorem mem_trace_tryCatch {α : Type} {x : M α} {h : PyExc → M α} {e : Event} (s : St)
    (hx : e ∈ ((x s).2).trace) (hh : ∀ ex, TraceSpec (h ex)) :
    e ∈ ((tryCatchM x h s).2).trace := by
  rw [tryCatchM_apply]
  rcases hxs : x s with ⟨r, s₂⟩
  rw [hxs] at hx
  cases r with
  | ok a => exact hx
  | error ex => exact traceSpec_keeps (hh ex) s₂ hx

/-- Whatever the environment answers, the first title variant's search
request is issued. -/
theorem mem_mbVariantBody_trace (env : Env) (aq t : String) (s : St) :
    Event.request Service.mbRecordingSearch mbRecordingSearchURL (luceneQuery t aq) 1 ∈
      ((mbVariantBody env aq t) s).2.trace := by
  simp only [mbVariantBody]
  apply mem_trace_bind
  · rcases henv : env.mbRecordingSearch (luceneQuery t aq) with _ | data
    · rw [rateLimitedGet_none_apply]
      simp
    · rw [rateLimitedGet_ok_apply]
      simp
  · intro data
    split
    · exact ts_pure none
    · apply ts_bind (ts_rateLimitedGet 1200 (Or.inr rfl))
      intro recDetails
      split
      · exact ts_pure none
      · apply ts_bind (ts_rateLimitedGet 1200 (Or.inr rfl))
        intro workDetails
        split
        · exact ts_pure _
        · exact ts_pure none

theorem mbTryVariants_first_request (env : Env) (aq t : String) (ts : List String)
    (s : St) :
    Event.request Service.mbRecordingSearch mbRecordingSearchURL (luceneQuery t aq) 1 ∈
      ((mbTryVariants env aq (t :: ts)) s).2.trace := by
  simp only [mbTryVariants]
  apply mem_trace_bind
  · exact mem_trace_tryCatch s (mem_mbVariantBody_trace env aq t s) (fun _ => ts_pure none)
  · intro a
    split
    · exact ts_pure _
    · exact ts_mbTryVariants env aq ts

/-- Value-level: when every recording search misses and the work search
returns no candidates, the MusicBrainz lookup yields no answer. -/
theorem val_fetchWorkDetailsFromMB_none (env : Env) (title artist : String)
    (oq : Option String) (s : St)
    (hR : ∀ q', env.mbRecordingSearch q' = some { recordings := [] })
    (hWS : ∀ q', env.mbWorkSearch q' = some { works := [] }) :
    ∃ s', fetchWorkDetailsFromMB env title artist oq s = (Except.ok none, s') := by
  have hfb : ∀ s₀ : St, mbFallback env artist (oq.getD "") s₀ =
      (Except.ok none, { s₀ with trace := s₀.trace ++
        [Event.sleep 1200,
         Event.request Service.mbWorkSearch mbWorkSearchURL (oq.getD "") 3] }) := by
    intro s₀
    rw [run_mbFallback env artist (oq.getD "") (fun _ => ({} : MBWorkDetails))
      { works := [] } s₀ (hWS _) (by intro w hw; cases hw)]
    simp [firstAccepted, fallbackLoopEvents]
  simp only [fetchWorkDetailsFromMB]
  split
  · simp only [bind_apply, pure_apply]
    split
    · exact ⟨_, hfb s⟩
    · exact ⟨s, pure_apply none s⟩
  · simp only [bind_apply, run_mbTryVariants_noHits env _ _ s (fun v _ => hR _)]
    split
    · exact ⟨_, hfb _⟩
    · exact ⟨_, pure_apply none _⟩

/-- Value-level: a wiki search with no result pages yields no year. -/
theorem val_fetchCompositionYearFromWikidata_none (env : Env) (title composer : String)
    (s : St) (hW : ∀ q', env.wikiSearch q' = some { pages := [] }) :
    ∃ s', fetchCompositionYearFromWikidata env title composer s = (Except.ok none, s') := by
  by_cases ht : title = ""
  · refine ⟨s, ?_⟩
    simp only [fetchCompositionYearFromWikidata, tryCatchM_apply, if_pos ht, pure_apply]
  · refine ⟨{ s with trace := s.trace ++ [Event.sleep 1000,
      Event.request Service.wikiSearch wikiSearchURL
        (if pyTruthyS composer = true then composer ++ " " ++ title else title) 5] }, ?_⟩
    simp only [fetchCompositionYearFromWikidata, tryCatchM_apply, if_neg ht, bind_apply,
      hW, rateLimitedGet_ok_apply, pure_apply]

/-- The full variant-path hit: the first variant's search returns a
recording whose work has a composer relation. -/
theorem run_mbVariantBody_hit (env : Env) (aq t : String) (s : St)
    (hit : MBRecordingHit) (more : List MBRecordingHit) (det : MBRecordingDetails)
    (wrel : MBRel) (wd : MBWorkDetails) (c : String)
    (hsearch : env.mbRecordingSearch (luceneQuery t aq) =
      some { recordings := hit :: more })
    (hdet : env.mbRecordingDetails hit.id = some det)
    (hwrel : det.relations.find? (fun rel => rel.targetType = some "work") = some wrel)
    (hwork : env.mbWork wrel.workId = some wd)
    (hcomp : composerOf wd = some c) :
    mbVariantBody env aq t s =
      (Except.ok (some { composer := c, year := workYearOf wd }),
        { s with trace := s.trace ++
          [Event.sleep 1200,
           Event.request Service.mbRecordingSearch mbRecordingSearchURL (luceneQuery t aq) 1,
           Event.sleep 1200,
           Event.request Service.mbRecordingDetails (mbRecordingDetailsURL hit.id) "" 0,
           Event.sleep 1200,
           Event.request Service.mbWork (mbWorkURL wrel.workId) "" 0] }) := by
  rcases hfind : wd.relations.find? (fun rel => rel.relType = some "composer") with _ | rel
  · rw [composerOf, hfind] at hcomp
    cases hcomp
  · rw [composerOf, hfind, Option.map_some'] at hcomp
    simp only [mbVariantBody, bind_apply, hsearch, rateLimitedGet_ok_apply, hdet, hwrel,
      hwork, hfind, pure_apply]
    have hyear : (match wd.relations.find?
          (fun r₂ => r₂.relType = some "performance" && r₂.begin.isSome) with
        | some r₂ => some ((r₂.begin.getD "").take 4)
        | none =>
          if pyTruthyO wd.lifeSpanBegin = true then some ((wd.lifeSpanBegin.getD "").take 4)
          else none) = workYearOf wd := by
      rw [workYearOf]
    simp only [hyear, List.append_assoc, List.cons_append, List.nil_append]
    cases hcomp
    rfl

/-- Short-circuit: a hit on the first variant returns immediately; no
later variant is queried. -/
theorem run_mbTryVariants_firstHit (env : Env) (aq t : String) (ts : List String)
    (s : St) (hit : MBRecordingHit) (more : List MBRecordingHit)
    (det : MBRecordingDetails) (wrel : MBRel) (wd : MBWorkDetails) (c : String)
    (hsearch : env.mbRecordingSearch (luceneQuery t aq) =
      some { recordings := hit :: more })
    (hdet : env.mbRecordingDetails hit.id = some det)
    (hwrel : det.relations.find? (fun rel => rel.targetType = some "work") = some wrel)
    (hwork : env.mbWork wrel.workId = some wd)
    (hcomp : composerOf wd = some c) :
    mbTryVariants env aq (t :: ts) s =
      (Except.ok (some { composer := c, year := workYearOf wd }),
        { s with trace := s.trace ++
          [Event.sleep 1200,
           Event.request Service.mbRecordingSearch mbRecordingSearchURL (luceneQuery t aq) 1,
           Event.sleep 1200,
           Event.request Service.mbRecordingDetails (mbRecordingDetailsURL hit.id) "" 0,
           Event.sleep 1200,
           Event.request Service.mbWork (mbWorkURL wrel.workId) "" 0] }) := by
  simp only [mbTryVariants, bind_apply, tryCatchM_apply,
    run_mbVariantBody_hit env aq t s hit more det wrel wd c hsearch hdet hwrel hwork hcomp,
    pure_apply]

/-! ### Field merging of `fetch_metadata`, named for the statements -/

/-- `result.get("trackName", "Unknown Title")`. -/
def itunesTitle (r : ItunesResult) : String := r.trackName.getD "Unknown Title"

/-- `result.get("artistName", "Unknown Artist")`. -/
def itunesArtist (r : ItunesResult) : String := r.artistName.getD "Unknown Artist"

/-- `release_date[:4] if release_date else "Unknown"`. -/
def itunesRecYear (r : ItunesResult) : String :=
  if r.releaseDate.getD "" ≠ "" then (r.releaseDate.getD "").take 4 else "Unknown"

/-- The composer after the MusicBrainz merge: the catalog composer when
truthy, otherwise the MusicBrainz one when a MusicBrainz answer exists. -/
def mergeComposer (c : Option String) (mbv : Option MBComposerYear) : Option String :=
  match mbv with
  | none => c
  | some mb => if pyTruthyO c then c else some mb.composer

/-- The composition year taken from the MusicBrainz answer, when truthy. -/
def mbYearOf (mbv : Option MBComposerYear) : Option String :=
  match mbv with
  | none => none
  | some mb => if pyTruthyO mb.year then mb.year else none

/-- `final_composer or artist`: the composer argument passed to the
Wikipedia/Wikidata fallback. -/
def wikiComposerArg (r : ItunesResult) (mbv : Option MBComposerYear) : String :=
  if pyTruthyO (mergeComposer r.composer mbv) then (mergeComposer r.composer mbv).getD ""
  else itunesArtist r

/-- Master characterization of a successful `fetch_metadata` run with
Spotify unconfigured, in terms of the catalog response, the MusicBrainz
stage run and the composition-year stage run. -/
theorem run_fetchMetadata_noSpotify
    (env : Env) (q : String) (s : St) (resp : ItunesResponse) (rc : Int)
    (r : ItunesResult) (rest : List ItunesResult)
    (mbv : Option MBComposerYear) (s₂ : St) (cy : Option String) (s₃ : St)
    (h₁ : env.itunes q = some resp) (h₂ : resp.resultCount = some rc) (h₃ : ¬rc = 0)
    (h₄ : resp.results = some (r :: rest))
    (hskip : (pyTruthyS env.spotifyClientId &&
      env.spotifyClientId ≠ "YOUR_SPOTIFY_CLIENT_ID") = false)
    (hmb : fetchWorkDetailsFromMB env (itunesTitle r) (itunesArtist r) (some q)
        { s with trace := s.trace ++ [Event.request Service.itunes itunesSearchURL q 1] } =
        (Except.ok mbv, s₂))
    (hcy : (if (!pyTruthyO (mbYearOf mbv)) = true then
          fetchCompositionYearFromWikidata env (itunesTitle r) (wikiComposerArg r mbv)
        else pure (mbYearOf mbv)) s₂ = (Except.ok cy, s₃)) :
    fetchMetadata env q s = (Except.ok (some {
      query := q, title := itunesTitle r, artist := itunesArtist r,
      composer := if pyTruthyO (mergeComposer r.composer mbv) = true
                  then (mergeComposer r.composer mbv).getD "" else "Unknown Composer",
      album := r.collectionName.getD "Unknown Album",
      year := if pyTruthyO cy = true then cy.getD "" else itunesRecYear r,
      recording_year := itunesRecYear r,
      composition_year := cy.getD "",
      genre := r.primaryGenreName.getD "Unknown Genre",
      apple_link := r.trackViewUrl.getD "",
      spotify_link := "" }), s₃) := by
  simp only [itunesTitle, itunesArtist] at hmb
  simp only [fetchMetadata, tryCatchM_apply, bind_apply, h₁, netGet_ok_apply, h₂,
    if_neg h₃, h₄, hmb, hskip, Bool.false_eq_true, if_false, pure_apply]
  cases mbv with
  | none =>
    simp only [mbYearOf, mergeComposer, wikiComposerArg, itunesTitle, itunesArtist,
      itunesRecYear, pyTruthyO, Bool.not_false, if_true] at hcy ⊢
    simp only [bind_apply, hcy]
  | some mb =>
    simp only [mbYearOf, mergeComposer, wikiComposerArg, itunesTitle, itunesArtist,
      itunesRecYear] at hcy ⊢
    by_cases hb : (!pyTruthyO (if pyTruthyO mb.year = true then mb.year else none)) = true
    · rw [if_pos hb] at hcy
      rw [if_pos hb]
      simp only [bind_apply, hcy]
    · rw [if_neg hb] at hcy
      rw [if_neg hb]
      rw [pure_apply] at hcy
      cases hcy
      simp only [bind_apply, pure_apply]

/-- Master characterization of a successful `fetch_metadata` run with
Spotify configured. -/
theorem run_fetchMetadata_spotify
    (env : Env) (q : String) (s : St) (resp : ItunesResponse) (rc : Int)
    (r : ItunesResult) (rest : List ItunesResult)
    (mbv : Option MBComposerYear) (s₂ : St) (cy : Option String) (s₃ : St)
    (sd : Option SpotifyData) (s₄ : St)
    (h₁ : env.itunes q = some resp) (h₂ : resp.resultCount = some rc) (h₃ : ¬rc = 0)
    (h₄ : resp.results = some (r :: rest))
    (hcfg : (pyTruthyS env.spotifyClientId &&
      env.spotifyClientId ≠ "YOUR_SPOTIFY_CLIENT_ID") = true)
    (hmb : fetchWorkDetailsFromMB env (itunesTitle r) (itunesArtist r) (some q)
        { s with trace := s.trace ++ [Event.request Service.itunes itunesSearchURL q 1] } =
        (Except.ok mbv, s₂))
    (hcy : (if (!pyTruthyO (mbYearOf mbv)) = true then
          fetchCompositionYearFromWikidata env (itunesTitle r) (wikiComposerArg r mbv)
        else pure (mbYearOf mbv)) s₂ = (Except.ok cy, s₃))
    (hsp : fetchSpotifyMetadata env q s₃ = (Except.ok sd, s₄)) :
    fetchMetadata env q s = (Except.ok (some {
      query := q, title := itunesTitle r, artist := itunesArtist r,
      composer := if pyTruthyO (mergeComposer r.composer mbv) = true
                  then (mergeComposer r.composer mbv).getD "" else "Unknown Composer",
      album := r.collectionName.getD "Unknown Album",
      year := if pyTruthyO cy = true then cy.getD "" else itunesRecYear r,
      recording_year := itunesRecYear r,
      composition_year := cy.getD "",
      genre := r.primaryGenreName.getD "Unknown Genre",
      apple_link := r.trackViewUrl.getD "",
      spotify_link := match sd with | some sdata => sdata.url | none => "" }), s₄) := by
  simp only [itunesTitle, itunesArtist] at hmb
  simp only [fetchMetadata, tryCatchM_apply, bind_apply, h₁, netGet_ok_apply, h₂,
    if_neg h₃, h₄, hmb, hcfg, if_true, pure_apply, hsp]
  cases mbv with
  | none =>
    simp only [mbYearOf, mergeComposer, wikiComposerArg, itunesTitle, itunesArtist,
      itunesRecYear, pyTruthyO, Bool.not_false, if_true] at hcy ⊢
    simp only [bind_apply, hcy, hsp]
    cases sd <;> rfl
  | some mb =>
    simp only [mbYearOf, mergeComposer, wikiComposerArg, itunesTitle, itunesArtist,
      itunesRecYear] at hcy ⊢
    by_cases hb : (!pyTruthyO (if pyTruthyO mb.year = true then mb.year else none)) = true
    · rw [if_pos hb] at hcy
      rw [if_pos hb]
      simp only [bind_apply, hcy, hsp]
      cases sd <;> rfl
    · rw [if_neg hb] at hcy
      rw [if_neg hb]
      rw [pure_apply] at hcy
      cases hcy
      simp only [bind_apply, pure_apply, hsp]
      cases sd <;> rfl

/-- General shape of a successful `fetch_metadata` run: whatever the
MusicBrainz / wiki / Spotify stages answer, the record exists and its
title, artist, album, genre, catalog link and recording year come from
the top catalog result; the composer keeps the catalog composer when
that is truthy. -/
theorem fetchMetadata_top_fields
    (env : Env) (q : String) (s : St) (resp : ItunesResponse) (rc : Int)
    (r : ItunesResult) (rest : List ItunesResult)
    (h₁ : env.itunes q = some resp) (h₂ : resp.resultCount = some rc) (h₃ : ¬rc = 0)
    (h₄ : resp.results = some (r :: rest)) :
    ∃ rec s', fetchMetadata env q s = (Except.ok (some rec), s') ∧
      rec.query = q ∧ rec.title = itunesTitle r ∧ rec.artist = itunesArtist r ∧
      rec.album = r.collectionName.getD "Unknown Album" ∧
      rec.genre = r.primaryGenreName.getD "Unknown Genre" ∧
      rec.apple_link = r.trackViewUrl.getD "" ∧
      rec.recording_year = itunesRecYear r ∧
      (pyTruthyO r.composer = true → rec.composer = r.composer.getD "") ∧
      Event.request Service.itunes itunesSearchURL q 1 ∈ s'.trace := by
  obtain ⟨mbv, s₂, hmb⟩ := noRaise_fetchWorkDetailsFromMB env (itunesTitle r)
    (itunesArtist r) (some q)
    { s with trace := s.trace ++ [Event.request Service.itunes itunesSearchURL q 1] }
  have hcyNR : NoRaise (if (!pyTruthyO (mbYearOf mbv)) = true then
      fetchCompositionYearFromWikidata env (itunesTitle r) (wikiComposerArg r mbv)
      else pure (mbYearOf mbv)) := by
    split
    · exact noRaise_fetchCompositionYearFromWikidata env _ _
    · exact noRaise_pure _
  obtain ⟨cy, s₃, hcy⟩ := hcyNR s₂
  have hcomposer : pyTruthyO r.composer = true →
      (if pyTruthyO (mergeComposer r.composer mbv) = true
       then (mergeComposer r.composer mbv).getD "" else "Unknown Composer") =
        r.composer.getD "" := by
    intro htr
    have : mergeComposer r.composer mbv = r.composer := by
      cases mbv with
      | none => rfl
      | some mb => simp [mergeComposer, htr]
    rw [this, if_pos htr]
  have hmbtrace : Event.request Service.itunes itunesSearchURL q 1 ∈ s₂.trace := by
    have hstart : Event.request Service.itunes itunesSearchURL q 1 ∈
        ({ s with trace := s.trace ++ [Event.request Service.itunes itunesSearchURL q 1] } : St).trace := by
      simp
    have := traceSpec_keeps (ts_fetchWorkDetailsFromMB env (itunesTitle r)
      (itunesArtist r) (some q)) _ hstart
    rw [hmb] at this
    exact this
  have hcytrace : Event.request Service.itunes itunesSearchURL q 1 ∈ s₃.trace := by
    have hts : TraceSpec (if (!pyTruthyO (mbYearOf mbv)) = true then
        fetchCompositionYearFromWikidata env (itunesTitle r) (wikiComposerArg r mbv)
        else pure (mbYearOf mbv)) := by
      split
      · exact ts_fetchCompositionYearFromWikidata env _ _
      · exact ts_pure _
    have := traceSpec_keeps hts s₂ hmbtrace
    rw [hcy] at this
    exact this
  by_cases hcfg : (pyTruthyS env.spotifyClientId &&
      env.spotifyClientId ≠ "YOUR_SPOTIFY_CLIENT_ID") = true
  · obtain ⟨sd, s₄, hsp⟩ := noRaise_fetchSpotifyMetadata env q s₃
    refine ⟨_, s₄, run_fetchMetadata_spotify env q s resp rc r rest mbv s₂ cy s₃ sd s₄
      h₁ h₂ h₃ h₄ hcfg hmb hcy hsp, rfl, rfl, rfl, rfl, rfl, rfl, rfl, hcomposer, ?_⟩
    have hts := ts_fetchSpotifyMetadata env q
    have := traceSpec_keeps hts s₃ hcytrace
    rw [hsp] at this
    exact this
  · refine ⟨_, s₃, run_fetchMetadata_noSpotify env q s resp rc r rest mbv s₂ cy s₃
      h₁ h₂ h₃ h₄ (by simpa using hcfg) hmb hcy, rfl, rfl, rfl, rfl, rfl, rfl, rfl,
      hcomposer, hcytrace⟩

/-- `pages_sorted[0] if pages_sorted else pages[0]`. -/
def bestPageOf (cl : Option String) (pages : List WikiPage) : WikiPage :=
  let ps := sortedPages cl pages
  if ps.isEmpty then pages.headD {} else ps.headD {}

/-- The stable descending sort puts a page of maximal score first. -/
theorem bestPageOf_max (cl : Option String) (pages : List WikiPage) (h : pages ≠ []) :
    bestPageOf cl pages ∈ pages ∧
      ∀ p ∈ pages, scorePage cl p ≤ scorePage cl (bestPageOf cl pages) := by
  haveI : IsTotal WikiPage (fun a b => scorePage cl b ≤ scorePage cl a) :=
    ⟨fun a b => le_total (scorePage cl b) (scorePage cl a)⟩
  haveI : IsTrans WikiPage (fun a b => scorePage cl b ≤ scorePage cl a) :=
    ⟨fun _ _ _ hab hbc => le_trans hbc hab⟩
  have hperm := List.perm_insertionSort
    (fun a b => scorePage cl b ≤ scorePage cl a) pages
  have hsorted := List.sorted_insertionSort
    (fun a b => scorePage cl b ≤ scorePage cl a) pages
  rcases hps : sortedPages cl pages with _ | ⟨b, t⟩
  · exfalso
    apply h
    have := hperm.length_eq
    rw [show List.insertionSort (fun a b => scorePage cl b ≤ scorePage cl a) pages =
      sortedPages cl pages from rfl, hps] at this
    exact List.length_eq_zero.mp this.symm
  · have hbest : bestPageOf cl pages = b := by
      simp [bestPageOf, hps]
    have hps' : List.insertionSort (fun a b => scorePage cl b ≤ scorePage cl a) pages =
        b :: t := by
      rw [show List.insertionSort (fun a b => scorePage cl b ≤ scorePage cl a) pages =
        sortedPages cl pages from rfl]
      exact hps
    rw [hps'] at hperm hsorted
    constructor
    · rw [hbest]
      exact hperm.mem_iff.mp (List.mem_cons_self b t)
    · intro p hp
      rw [hbest]
      have hp₂ : p ∈ b :: t := hperm.mem_iff.mpr hp
      rcases List.mem_cons.mp hp₂ with hpb | hpt
      · rw [hpb]
      · have := (List.pairwise_cons.mp hsorted).1 p hpt
        simpa using this

/-- Full wiki chain characterization: search hits, a best page with a
key, a wikibase item, an entity — the returned year is `inception`
(P571) first, then `publication date` (P577). -/
theorem run_fetchCompositionYearFromWikidata_full
    (env : Env) (title composer : String) (s : St)
    (sq : String) (cl : Option String) (p₀ : WikiPage) (prest : List WikiPage)
    (bp : WikiPage) (wt : String) (props : List (String × WikiPageProps))
    (pr : String × WikiPageProps) (eid : String) (entResp : WdEntityResp)
    (ent : String × WdEntity)
    (htitle : ¬title = "")
    (hsq : sq = if pyTruthyS composer = true then composer ++ " " ++ title else title)
    (hcl : cl = if pyTruthyS composer = true then some (pyToLower composer) else none)
    (hsearch : env.wikiSearch sq = some { pages := p₀ :: prest })
    (hbp : bestPageOf cl (p₀ :: prest) = bp)
    (hkey : pyTruthyO bp.key = true)
    (hwt : wt = pyReplace (bp.key.getD "") "_" " ")
    (hprops : env.wikiPageProps wt = some props)
    (hfind : props.find? (fun p => pyTruthyO p.2.wikibaseItem) = some pr)
    (heid : eid = pr.2.wikibaseItem.getD "")
    (hent : env.wdEntity eid = some entResp)
    (hfind2 : entResp.entities.find? (fun e => e.1 = eid) = some ent) :
    fetchCompositionYearFromWikidata env title composer s =
      (Except.ok (match extractYear ent.2.claims "P571" with
         | some y => some y
         | none => extractYear ent.2.claims "P577"),
       { s with trace := s.trace ++
         [Event.sleep 1000, Event.request Service.wikiSearch wikiSearchURL sq 5,
          Event.sleep 1000, Event.request Service.wikiProps wikiApiURL wt 0,
          Event.sleep 1000, Event.request Service.wdEntity (wdEntityURL eid) "" 0] }) := by
  subst hsq hcl hwt heid
  simp only [bestPageOf] at hbp
  simp only [fetchCompositionYearFromWikidata, tryCatchM_apply, if_neg htitle,
    bind_apply, hsearch, rateLimitedGet_ok_apply, hbp, hkey, Bool.not_true,
    Bool.false_eq_true, if_false, hprops, hfind, hent, hfind2, pure_apply]
  cases hE : extractYear ent.2.claims "P571" with
  | none => simp [hE]
  | some y => simp [hE]

/-- A transport failure on the catalog request is caught: the record
fails without an exception. -/
theorem run_fetchMetadata_reqError (env : Env) (q : String) (s : St)
    (h₁ : env.itunes q = none) :
    fetchMetadata env q s = (Except.ok none,
      { s with trace := s.trace ++ [Event.request Service.itunes itunesSearchURL q 1] }) := by
  simp only [fetchMetadata, tryCatchM_apply, bind_apply, h₁, netGet_none_apply, pure_apply]

/-- Zero catalog results: the whole record fails (returns `None`). -/
theorem run_fetchMetadata_zero (env : Env) (q : String) (s : St)
    (resp : ItunesResponse)
    (h₁ : env.itunes q = some resp) (h₂ : resp.resultCount = some 0) :
    fetchMetadata env q s = (Except.ok none,
      { s with trace := s.trace ++ [Event.request Service.itunes itunesSearchURL q 1] }) := by
  simp [fetchMetadata, tryCatchM_apply, bind_apply, h₁, netGet_ok_apply, h₂, pure_apply]

/-- Every successful record keeps the raw query string in its `query`
field. -/
theorem fetchMetadata_query_field (env : Env) (q : String) (s : St)
    (rec : TrackRecord) (s' : St)
    (h : fetchMetadata env q s = (Except.ok (some rec), s')) : rec.query = q := by
  rcases h₁ : env.itunes q with _ | resp
  · rw [run_fetchMetadata_reqError env q s h₁] at h
    simp at h
  · rcases h₂ : resp.resultCount with _ | rc
    · simp only [fetchMetadata, tryCatchM_apply, bind_apply, h₁, netGet_ok_apply, h₂,
        throwE] at h
      simp at h
    · by_cases h₃ : rc = 0
      · subst h₃
        rw [run_fetchMetadata_zero env q s resp h₁ h₂] at h
        simp at h
      · rcases h₄ : resp.results with _ | results
        · simp only [fetchMetadata, tryCatchM_apply, bind_apply, h₁, netGet_ok_apply, h₂,
            if_neg h₃, h₄, throwE] at h
          simp at h
        · cases results with
          | nil =>
            simp only [fetchMetadata, tryCatchM_apply, bind_apply, h₁, netGet_ok_apply,
              h₂, if_neg h₃, h₄, throwE] at h
            simp at h
          | cons r rest =>
            obtain ⟨rec', s'', heq, hq, -⟩ :=
              fetchMetadata_top_fields env q s resp rc r rest h₁ h₂ h₃ h₄
            rw [heq] at h
            simp only [Prod.mk.injEq, Except.ok.injEq, Option.some.injEq] at h
            obtain ⟨hrec, -⟩ := h
            rw [← hrec]
            exact hq

/-- Well-formed catalog responses: a `resultCount` key is present, and a
nonzero count comes with a nonempty `results` list. -/
def WFCatalog (env : Env) : Prop :=
  ∀ q resp, env.itunes q = some resp →
    ∃ rc, resp.resultCount = some rc ∧
      (¬rc = 0 → ∃ r rest, resp.results = some (r :: rest))

theorem noRaise_fetchMetadata_of_WF {env : Env} (hwf : WFCatalog env) (q : String) :
    NoRaise (fetchMetadata env q) := by
  intro s
  rcases h₁ : env.itunes q with _ | resp
  · exact ⟨none, _, run_fetchMetadata_reqError env q s h₁⟩
  · obtain ⟨rc, h₂, h₅⟩ := hwf q resp h₁
    by_cases h₃ : rc = 0
    · subst h₃
      exact ⟨none, _, run_fetchMetadata_zero env q s resp h₁ h₂⟩
    · obtain ⟨r, rest, h₄⟩ := h₅ h₃
      obtain ⟨rec, s', heq, -⟩ := fetchMetadata_top_fields env q s resp rc r rest h₁ h₂ h₃ h₄
      exact ⟨some rec, s', heq⟩

theorem noRaise_fetchAll_of_WF {env : Env} (hwf : WFCatalog env) (qs : List String) :
    NoRaise (fetchAll env qs) := by
  induction qs with
  | nil => exact noRaise_pure []
  | cons q rest ih =>
    simp only [fetchAll]
    apply noRaise_bind (noRaise_fetchMetadata_of_WF hwf q)
    intro data
    apply noRaise_bind ih
    intro restResults
    split
    · exact noRaise_pure _
    · exact noRaise_pure _

/-- `fetch_all` keeps the successful records in input order; each kept
record is the successful resolution of its own query string. -/
theorem fetchAll_shape (env : Env) (qs : List String) (s : St)
    (rs : List TrackRecord) (s' : St)
    (h : fetchAll env qs s = (Except.ok rs, s')) :
    (rs.map (fun r => r.query)).Sublist qs ∧
      ∀ r ∈ rs, ∃ s₁ s₂, fetchMetadata env r.query s₁ = (Except.ok (some r), s₂) := by
  induction qs generalizing s rs s' with
  | nil =>
    simp only [fetchAll, pure_apply, Prod.mk.injEq, Except.ok.injEq] at h
    obtain ⟨hrs, -⟩ := h
    subst hrs
    exact ⟨List.nil_sublist [], by intro r hr; cases hr⟩
  | cons q rest ih =>
    simp only [fetchAll, bind_apply] at h
    rcases hm : fetchMetadata env q s with ⟨res, s₂⟩
    cases res with
    | error e =>
      simp only [hm] at h
      exact absurd (Prod.mk.inj h).1 (by simp)
    | ok data =>
      simp only [hm] at h
      rcases hr : fetchAll env rest s₂ with ⟨res₂, s₃⟩
      cases res₂ with
      | error e =>
        simp only [hr] at h
        exact absurd (Prod.mk.inj h).1 (by simp)
      | ok restRs =>
        simp only [hr] at h
        obtain ⟨hsub, hmem⟩ := ih s₂ restRs s₃ hr
        cases data with
        | none =>
          simp only [pure_apply, Prod.mk.injEq, Except.ok.injEq] at h
          obtain ⟨hrs, -⟩ := h
          subst hrs
          exact ⟨hsub.cons q, hmem⟩
        | some d =>
          simp only [pure_apply, Prod.mk.injEq, Except.ok.injEq] at h
          obtain ⟨hrs, -⟩ := h
          subst hrs
          have hdq : d.query = q := fetchMetadata_query_field env q s d s₂ hm
          refine ⟨?_, ?_⟩
          · simp only [List.map_cons, hdq]
            exact hsub.cons₂ q
          · intro r hr₂
            rcases List.mem_cons.mp hr₂ with hrd | hrt
            · subst hrd
              exact ⟨s, s₂, by rw [hdq]; exact hm⟩
            · exact hmem r hrt

theorem titleVariants_eq_cons (title : String) :
    ∃ ts, titleVariants title = (pyReplace title "\"" "") :: ts := by
  simp only [titleVariants]
  exact ⟨_, rfl⟩

theorem titleVariants_length_le (title : String) : (titleVariants title).length ≤ 3 := by
  simp only [titleVariants, List.length_append, List.length_cons, List.length_nil]
  split <;> split <;> simp

/-- An accepted fallback answer passed the acceptance heuristics. -/
theorem firstAccepted_accepts (artist oq : String) (cs : List (Option String))
    (ans : MBComposerYear) (h : firstAccepted artist oq cs = some ans) :
    mbFallbackAccepts artist oq ans.composer = true := by
  induction cs with
  | nil => cases h
  | cons c rest ih =>
    cases c with
    | none => exact ih h
    | some cname =>
      rw [firstAccepted] at h
      by_cases hacc : mbFallbackAccepts artist oq cname = true
      · rw [if_pos hacc] at h
        cases h
        exact hacc
      · rw [if_neg hacc] at h
        exact ih h

/-- A hit on the first title variant makes the whole MusicBrainz lookup
return that composer, with exactly the three paused requests of that
variant (the fallback is never reached). -/
theorem run_fetchWorkDetailsFromMB_firstHit (env : Env) (title artist : String)
    (oq : Option String) (s : St) (hit : MBRecordingHit) (more : List MBRecordingHit)
    (det : MBRecordingDetails) (wrel : MBRel) (wd : MBWorkDetails) (c : String)
    (haq : ¬artistQueryOf artist = "")
    (hsearch : env.mbRecordingSearch
      (luceneQuery (pyReplace title "\"" "") (artistQueryOf artist)) =
      some { recordings := hit :: more })
    (hdet : env.mbRecordingDetails hit.id = some det)
    (hwrel : det.relations.find? (fun rel => rel.targetType = some "work") = some wrel)
    (hwork : env.mbWork wrel.workId = some wd)
    (hcomp : composerOf wd = some c) :
    fetchWorkDetailsFromMB env title artist oq s =
      (Except.ok (some { composer := c, year := workYearOf wd }),
        { s with trace := s.trace ++
          [Event.sleep 1200,
           Event.request Service.mbRecordingSearch mbRecordingSearchURL
             (luceneQuery (pyReplace title "\"" "") (artistQueryOf artist)) 1,
           Event.sleep 1200,
           Event.request Service.mbRecordingDetails (mbRecordingDetailsURL hit.id) "" 0,
           Event.sleep 1200,
           Event.request Service.mbWork (mbWorkURL wrel.workId) "" 0] }) := by
  obtain ⟨ts, hts⟩ := titleVariants_eq_cons title
  simp only [fetchWorkDetailsFromMB, if_neg haq, hts, bind_apply,
    run_mbTryVariants_firstHit env (artistQueryOf artist) (pyReplace title "\"" "") ts s
      hit more det wrel wd c hsearch hdet hwrel hwork hcomp, pure_apply]

/-- Whenever the artist clause is nonempty, the structured MusicBrainz
recording search for the first title variant is issued. -/
theorem mem_fetchWorkDetailsFromMB_trace (env : Env) (title artist : String)
    (oq : Option String) (s : St) (haq : ¬artistQueryOf artist = "") :
    Event.request Service.mbRecordingSearch mbRecordingSearchURL
      (luceneQuery (pyReplace title "\"" "") (artistQueryOf artist)) 1 ∈
      ((fetchWorkDetailsFromMB env title artist oq) s).2.trace := by
  obtain ⟨ts, hts⟩ := titleVariants_eq_cons title
  simp only [fetchWorkDetailsFromMB, if_neg haq, hts]
  apply mem_trace_bind
  · exact mbTryVariants_first_request env (artistQueryOf artist) _ ts s
  · intro a
    split
    · exact ts_pure _
    · split
      · exact ts_mbFallback env _ _
      · exact ts_pure none

/-- A request to the Wikipedia / Wikidata endpoints. -/
def isWikiReq (e : Event) : Bool :=
  match e with
  | Event.request Service.wikiSearch _ _ _ => true
  | Event.request Service.wikiProps _ _ _ => true
  | Event.request Service.wdEntity _ _ _ => true
  | _ => false

/-- Any HTTP request event. -/
def isRequest (e : Event) : Bool :=
  match e with
  | Event.request _ _ _ _ => true
  | _ => false

theorem first_event_bind_tryCatch {α β : Type} (svc : Service) (url payload : String)
    (limit : Nat) (resp : Option α) (f : α → M β) (h : PyExc → M β)
    (hf : ∀ a, TraceSpec (f a)) (hh : ∀ e, TraceSpec (h e)) (s : St) :
    ∃ Δ, ((tryCatchM (netGet svc url payload limit resp >>= f) h) s).2.trace =
      s.trace ++ Event.request svc url payload limit :: Δ := by
  have hbody : ∃ Δ, (((netGet svc url payload limit resp >>= f)) s).2.trace =
      s.trace ++ Event.request svc url payload limit :: Δ := by
    cases resp with
    | none =>
      refine ⟨[], ?_⟩
      rw [bind_apply, netGet_none_apply]
    | some v =>
      rw [bind_apply, netGet_ok_apply]
      obtain ⟨Δ₂, hΔ₂, -⟩ := hf v
        { s with trace := s.trace ++ [Event.request svc url payload limit] }
      refine ⟨Δ₂, ?_⟩
      rw [hΔ₂]
      simp
  obtain ⟨Δ, hΔ⟩ := hbody
  rw [tryCatchM_apply]
  rcases hxs : (netGet svc url payload limit resp >>= f) s with ⟨r, s₂⟩
  rw [hxs] at hΔ
  cases r with
  | ok a => exact ⟨Δ, hΔ⟩
  | error e =>
    obtain ⟨Δ₃, hΔ₃, -⟩ := hh e s₂
    refine ⟨Δ ++ Δ₃, ?_⟩
    rw [hΔ₃, hΔ]
    simp

/-- The catalog request is the first event `fetch_metadata` emits: no
pause precedes it. -/
theorem fetchMetadata_first_event (env : Env) (q : String) (s : St) :
    ∃ Δ, ((fetchMetadata env q s).2).trace =
      s.trace ++ Event.request Service.itunes itunesSearchURL q 1 :: Δ := by
  simp only [fetchMetadata]
  apply first_event_bind_tryCatch
  · intro data
    split
    · exact ts_throwE _
    · split
      · exact ts_pure none
      · split
        · exact ts_throwE _
        · exact ts_throwE _
        · apply ts_bind (ts_fetchWorkDetailsFromMB env _ _ _)
          intro mbData
          split
          · apply ts_bind (ts_fetchCompositionYearFromWikidata env _ _)
            intro compositionYear
            split
            · apply ts_bind (ts_fetchSpotifyMetadata env q)
              intro spotifyData
              apply ts_bind (ts_pure _)
              intro y
              exact ts_pure _
            · apply ts_bind (ts_pure _)
              intro y
              exact ts_pure _
          · apply ts_bind (ts_pure _)
            intro compositionYear
            split
            · apply ts_bind (ts_fetchSpotifyMetadata env q)
              intro spotifyData
              apply ts_bind (ts_pure _)
              intro y
              exact ts_pure _
            · apply ts_bind (ts_pure _)
              intro y
              exact ts_pure _
  · intro e
    split
    · exact ts_pure none
    · exact ts_throwE _

/-! ### Concrete test environments -/

/-- Catalog result whose recording predates the (wrong) MusicBrainz
composition date. -/
def rYears : ItunesResult :=
  { trackName := some "Requiem", artistName := some "Anna Netrebko",
    releaseDate := some "1999-06-01" }

def cEnvYears : Env :=
  { itunes := fun _ => some { resultCount := some 1, results := some [rYears] }
    mbRecordingSearch := fun _ => some { recordings := [{ id := "rec1" }] }
    mbRecordingDetails := fun _ =>
      some { relations := [{ targetType := some "work", workId := "w1" }] }
    mbWork := fun _ =>
      some { relations := [{ relType := some "composer", artistName := "Giuseppe Verdi" }],
             lifeSpanBegin := some "2020-05-05" }
    mbWorkSearch := fun _ => some { works := [] }
    wikiSearch := fun _ => some { pages := [] }
    wikiPageProps := fun _ => none
    wdEntity := fun _ => none }

/-- The record `fetch_metadata` returns on `cEnvYears`: its composition
year (2020) is numerically later than its recording year (1999) and is
NOT swapped. -/
def yearsRec : TrackRecord :=
  { query := "Verdi Requiem", title := "Requiem", artist := "Anna Netrebko",
    composer := "Giuseppe Verdi", album := "Unknown Album", year := "2020",
    recording_year := "1999", composition_year := "2020", genre := "Unknown Genre",
    apple_link := "", spotify_link := "" }

/-- Catalog result that already lists a composer. -/
def rComposer : ItunesResult :=
  { trackName := some "Cello Concerto", artistName := some "Yo-Yo Ma",
    releaseDate := some "2002-01-01", composer := some "John Williams" }

def cEnvComposer : Env :=
  { itunes := fun _ => some { resultCount := some 1, results := some [rComposer] }
    mbRecordingSearch := fun _ => some { recordings := [] }
    mbRecordingDetails := fun _ => none
    mbWork := fun _ => none
    mbWorkSearch := fun _ => some { works := [] }
    wikiSearch := fun _ => some { pages := [] }
    wikiPageProps := fun _ => none
    wdEntity := fun _ => none }

/-- Catalog search with zero results. -/
def cEnvZero : Env :=
  { itunes := fun _ => some { resultCount := some 0 }
    mbRecordingSearch := fun _ => none
    mbRecordingDetails := fun _ => none
    mbWork := fun _ => none
    mbWorkSearch := fun _ => none
    wikiSearch := fun _ => none
    wikiPageProps := fun _ => none
    wdEntity := fun _ => none }

/-- Malformed catalog response: HTTP succeeds but the JSON body carries
no `resultCount` key, so `data["resultCount"]` raises `KeyError`. -/
def cEnvBadCatalog : Env :=
  { itunes := fun _ => some {}
    mbRecordingSearch := fun _ => none
    mbRecordingDetails := fun _ => none
    mbWork := fun _ => none
    mbWorkSearch := fun _ => none
    wikiSearch := fun _ => none
    wikiPageProps := fun _ => none
    wdEntity := fun _ => none }

/-- Fallback candidate whose composer matches neither heuristic. -/
def wdReject : MBWorkDetails :=
  { relations := [{ relType := some "composer", artistName := "Random Guy" }] }

/-- Fallback candidate whose composer name-part occurs in the query. -/
def wdAccept : MBWorkDetails :=
  { relations := [{ relType := some "composer", artistName := "Ludwig van Beethoven" }] }

def cDetails : MBWorkHit → MBWorkDetails := fun w =>
  if w.id = "w1" then wdReject else wdAccept

def cEnvFallback : Env :=
  { itunes := fun _ => none
    mbRecordingSearch := fun _ => some { recordings := [] }
    mbRecordingDetails := fun _ => none
    mbWork := fun id => if id = "w1" then some wdReject else some wdAccept
    mbWorkSearch := fun _ => some { works := [{ id := "w1" }, { id := "w2" }] }
    wikiSearch := fun _ => none
    wikiPageProps := fun _ => none
    wdEntity := fun _ => none }

/-- A page about the opera (scores genre and excerpt bonuses) and an
unrelated page. -/
def pageOpera : WikiPage :=
  { title := some "Nixon in China", description := some "opera by John Adams",
    excerpt := some "composed in 1987", key := some "Nixon_in_China" }

def pageOther : WikiPage :=
  { title := some "Nixon", description := some "US president", key := some "Nixon" }

def rChina : ItunesResult :=
  { trackName := some "Nixon in China", artistName := some "Orchestra X",
    releaseDate := some "2009-03-01" }

def cEnvWiki : Env :=
  { itunes := fun _ => some { resultCount := some 1, results := some [rChina] }
    mbRecordingSearch := fun _ => some { recordings := [] }
    mbRecordingDetails := fun _ => none
    mbWork := fun _ => none
    mbWorkSearch := fun _ => some { works := [] }
    wikiSearch := fun _ => some { pages := [pageOpera, pageOther] }
    wikiPageProps := fun _ => some [("8157", { wikibaseItem := some "Q1058294" })]
    wdEntity := fun _ => some { entities :=
      [("Q1058294", { claims :=
        [("P571", [{ time := some "+1987-01-01T00:00:00Z" }])] })] } }

/-- Catalog top result with every optional field absent. -/
def cEnvDefaults : Env :=
  { itunes := fun _ => some { resultCount := some 2, results := some [{}] }
    mbRecordingSearch := fun _ => some { recordings := [] }
    mbRecordingDetails := fun _ => none
    mbWork := fun _ => none
    mbWorkSearch := fun _ => some { works := [] }
    wikiSearch := fun _ => some { pages := [] }
    wikiPageProps := fun _ => none
    wdEntity := fun _ => none }

/-! ## Claim theorems -/

/-- C1 (counterexample).  On `cEnvYears`, `fetch_metadata` itself
returns the record with composition year 2020 numerically later than
recording year 1999: the returned record does NOT have the values
swapped, contradicting the claim as stated. -/
theorem fetchMetadata_returns_unswapped_years :
    (fetchMetadata cEnvYears "Verdi Requiem" {}).1 = Except.ok (some yearsRec) ∧
      pyInt? yearsRec.composition_year = some 2020 ∧
      pyInt? yearsRec.recording_year = some 1999 ∧
      ¬(2020 : Int) ≤ 1999 := by
  refine ⟨by decide, by decide, by decide, by decide⟩

/-- C1 (amended).  The swap happens in `PDFGenerator.create_pdf`, not in
`fetch_metadata`: the year pair shown on a card is the record's pair,
possibly swapped, and whenever both shown values parse as integers the
shown composition year is never numerically greater than the shown
recording year. -/
theorem pdf_shows_ordered_year_pair (item : TrackRecord) (ys₁ ys₂ : String)
    (hpair : pdfYearPair item = (ys₁, ys₂)) :
    (∀ a b : Int, pyInt? ys₁ = some a → pyInt? ys₂ = some b → a ≤ b) ∧
      (pdfYearPair item = (item.composition_year, item.recording_year) ∨
        pdfYearPair item = (item.recording_year, item.composition_year)) := by
  rw [pdfYearPair] at hpair ⊢
  by_cases h1 : (item.composition_year ≠ "" && item.recording_year ≠ "") = true
  · rw [if_pos h1] at hpair ⊢
    rcases hc : pyInt? item.composition_year with _ | ci
    · simp only [hc] at hpair ⊢
      obtain ⟨he₁, he₂⟩ := Prod.mk.inj hpair
      subst he₁
      subst he₂
      refine ⟨?_, Or.inl (by trivial)⟩
      intro a b ha hb
      rw [hc] at ha
      cases ha
    · rcases hr : pyInt? item.recording_year with _ | ri
      · simp only [hc, hr] at hpair ⊢
        obtain ⟨he₁, he₂⟩ := Prod.mk.inj hpair
        subst he₁
        subst he₂
        refine ⟨?_, Or.inl (by trivial)⟩
        intro a b ha hb
        rw [hr] at hb
        cases hb
      · simp only [hc, hr] at hpair ⊢
        by_cases hgt : ci > ri
        · rw [if_pos hgt] at hpair ⊢
          obtain ⟨he₁, he₂⟩ := Prod.mk.inj hpair
          subst he₁
          subst he₂
          refine ⟨?_, Or.inr (by trivial)⟩
          intro a b ha hb
          rw [hr] at ha
          rw [hc] at hb
          cases ha
          cases hb
          exact le_of_lt hgt
        · rw [if_neg hgt] at hpair ⊢
          obtain ⟨he₁, he₂⟩ := Prod.mk.inj hpair
          subst he₁
          subst he₂
          refine ⟨?_, Or.inl (by trivial)⟩
          intro a b ha hb
          rw [hc] at ha
          rw [hr] at hb
          cases ha
          cases hb
          exact le_of_not_lt hgt
  · rw [if_neg h1] at hpair ⊢
    obtain ⟨he₁, he₂⟩ := Prod.mk.inj hpair
    subst he₁
    subst he₂
    refine ⟨?_, Or.inl (by trivial)⟩
    intro a b ha hb
    simp only [Bool.and_eq_true, ne_eq, decide_not, Bool.not_eq_true',
      decide_eq_true_eq, not_and] at h1
    by_cases hce : item.composition_year = ""
    · rw [hce] at ha
      cases ha
    · have hre : item.recording_year = "" := by
        rcases h1 with h1
        by_cases hre : item.recording_year = ""
        · exact hre
        · exfalso
          apply h1 <;> simp [hce, hre]
      rw [hre] at hb
      cases hb

/-- C1 witness. -/
theorem pdf_shows_ordered_year_pair_witness :
    (1999 : Int) ≤ 2020 ∧
      (pdfYearPair yearsRec = (yearsRec.composition_year, yearsRec.recording_year) ∨
        pdfYearPair yearsRec = (yearsRec.recording_year, yearsRec.composition_year)) := by
  have h := pdf_shows_ordered_year_pair yearsRec "1999" "2020" (by decide)
  exact ⟨h.1 1999 2020 (by decide) (by decide), h.2⟩

/-- C2 (counterexample).  On `cEnvComposer` the catalog's top result
already lists the composer "John Williams", yet the run still issues a
MusicBrainz recording-search request: the encyclopedia lookup IS
performed ("Always try MusicBrainz" in the source). -/
theorem mb_lookup_performed_despite_catalog_composer :
    pyTruthyO rComposer.composer = true ∧
      ((fetchMetadata cEnvComposer "Williams Cello Concerto" {}).2.trace.any
        (fun e => match e with
          | Event.request Service.mbRecordingSearch _ _ _ => true
          | _ => false)) = true := by
  refine ⟨by decide, by decide⟩

/-- C2 (amended).  The MusicBrainz lookup is issued on every resolved
query (whenever the artist clause is nonempty), regardless of the
catalog composer; when the catalog composer is present (truthy) it is
the one kept in the returned record. -/
theorem mb_always_queried_catalog_composer_kept
    (env : Env) (q : String) (s : St) (resp : ItunesResponse) (rc : Int)
    (r : ItunesResult) (rest : List ItunesResult)
    (h₁ : env.itunes q = some resp) (h₂ : resp.resultCount = some rc)
    (h₃ : ¬rc = 0) (h₄ : resp.results = some (r :: rest))
    (hcomp : pyTruthyO r.composer = true)
    (haq : ¬artistQueryOf (itunesArtist r) = "") :
    ∃ rec s', fetchMetadata env q s = (Except.ok (some rec), s') ∧
      rec.composer = r.composer.getD "" ∧
      Event.request Service.mbRecordingSearch mbRecordingSearchURL
        (luceneQuery (pyReplace (itunesTitle r) "\"" "")
          (artistQueryOf (itunesArtist r))) 1 ∈ s'.trace := by
  obtain ⟨mbv, s₂, hmb⟩ := noRaise_fetchWorkDetailsFromMB env (itunesTitle r)
    (itunesArtist r) (some q)
    { s with trace := s.trace ++ [Event.request Service.itunes itunesSearchURL q 1] }
  have hmbtrace : Event.request Service.mbRecordingSearch mbRecordingSearchURL
      (luceneQuery (pyReplace (itunesTitle r) "\"" "")
        (artistQueryOf (itunesArtist r))) 1 ∈ s₂.trace := by
    have := mem_fetchWorkDetailsFromMB_trace env (itunesTitle r) (itunesArtist r)
      (some q)
      { s with trace := s.trace ++ [Event.request Service.itunes itunesSearchURL q 1] }
      haq
    rw [hmb] at this
    exact this
  have hcyNR : NoRaise (if (!pyTruthyO (mbYearOf mbv)) = true then
      fetchCompositionYearFromWikidata env (itunesTitle r) (wikiComposerArg r mbv)
      else pure (mbYearOf mbv)) := by
    split
    · exact noRaise_fetchCompositionYearFromWikidata env _ _
    · exact noRaise_pure _
  obtain ⟨cy, s₃, hcy⟩ := hcyNR s₂
  have hcytrace : Event.request Service.mbRecordingSearch mbRecordingSearchURL
      (luceneQuery (pyReplace (itunesTitle r) "\"" "")
        (artistQueryOf (itunesArtist r))) 1 ∈ s₃.trace := by
    have hts : TraceSpec (if (!pyTruthyO (mbYearOf mbv)) = true then
        fetchCompositionYearFromWikidata env (itunesTitle r) (wikiComposerArg r mbv)
        else pure (mbYearOf mbv)) := by
      split
      · exact ts_fetchCompositionYearFromWikidata env _ _
      · exact ts_pure _
    have := traceSpec_keeps hts s₂ hmbtrace
    rw [hcy] at this
    exact this
  have hcomposer : (if pyTruthyO (mergeComposer r.composer mbv) = true
      then (mergeComposer r.composer mbv).getD "" else "Unknown Composer") =
        r.composer.getD "" := by
    have heq : mergeComposer r.composer mbv = r.composer := by
      cases mbv with
      | none => rfl
      | some mb => simp [mergeComposer, hcomp]
    rw [heq, if_pos hcomp]
  by_cases hcfg : (pyTruthyS env.spotifyClientId &&
      env.spotifyClientId ≠ "YOUR_SPOTIFY_CLIENT_ID") = true
  · obtain ⟨sd, s₄, hsp⟩ := noRaise_fetchSpotifyMetadata env q s₃
    refine ⟨_, s₄, run_fetchMetadata_spotify env q s resp rc r rest mbv s₂ cy s₃ sd s₄
      h₁ h₂ h₃ h₄ hcfg hmb hcy hsp, hcomposer, ?_⟩
    have := traceSpec_keeps (ts_fetchSpotifyMetadata env q) s₃ hcytrace
    rw [hsp] at this
    exact this
  · exact ⟨_, s₃, run_fetchMetadata_noSpotify env q s resp rc r rest mbv s₂ cy s₃
      h₁ h₂ h₃ h₄ (by simpa using hcfg) hmb hcy, hcomposer, hcytrace⟩

/-- C2 witness. -/
theorem mb_always_queried_catalog_composer_kept_witness :
    ∃ rec s', fetchMetadata cEnvComposer "Williams Cello Concerto" {} =
        (Except.ok (some rec), s') ∧
      rec.composer = rComposer.composer.getD "" ∧
      Event.request Service.mbRecordingSearch mbRecordingSearchURL
        (luceneQuery (pyReplace (itunesTitle rComposer) "\"" "")
          (artistQueryOf (itunesArtist rComposer))) 1 ∈ s'.trace :=
  mb_always_queried_catalog_composer_kept cEnvComposer "Williams Cello Concerto" {}
    { resultCount := some 1, results := some [rComposer] } 1 rComposer []
    rfl rfl (by decide) rfl (by decide) (by decide)

/-- C3 (counterexample).  A catalog response that decodes but lacks the
`resultCount` key raises `KeyError` inside the catalog lookup; the
exception is not caught (`fetch_metadata` catches only
`requests.RequestException`) and `fetch_all` terminates with it. -/
theorem fetchAll_uncaught_keyError :
    (fetchAll cEnvBadCatalog ["Bohemian Rhapsody"] {}).1 =
      Except.error PyExc.keyError := by
  decide

/-- C3 (amended).  Every exception inside the MusicBrainz, wiki and
Spotify lookups is caught; the catalog lookup catches transport errors
(`requests.RequestException`); and over catalog responses that are
well-formed JSON (`resultCount` present, nonempty `results` when the
count is nonzero), `fetch_all` never terminates with an exception. -/
theorem lookups_catch_their_exceptions :
    (∀ env title artist oq, NoRaise (fetchWorkDetailsFromMB env title artist oq)) ∧
      (∀ env title composer, NoRaise (fetchCompositionYearFromWikidata env title composer)) ∧
      (∀ env q, NoRaise (fetchSpotifyMetadata env q)) ∧
      (∀ env q s, env.itunes q = none → fetchMetadata env q s = (Except.ok none,
        { s with trace := s.trace ++ [Event.request Service.itunes itunesSearchURL q 1] })) ∧
      (∀ env : Env, WFCatalog env → ∀ qs : List String, NoRaise (fetchAll env qs)) :=
  ⟨noRaise_fetchWorkDetailsFromMB, noRaise_fetchCompositionYearFromWikidata,
    noRaise_fetchSpotifyMetadata, run_fetchMetadata_reqError,
    fun _ hwf qs => noRaise_fetchAll_of_WF hwf qs⟩

/-- C3 witness. -/
theorem lookups_catch_their_exceptions_witness :
    ∃ a s', fetchAll cEnvZero ["a", "b"] {} = (Except.ok a, s') :=
  lookups_catch_their_exceptions.2.2.2.2 cEnvZero
    (fun _ resp hresp => by
      cases hresp
      exact ⟨0, rfl, fun h0 => absurd rfl h0⟩)
    ["a", "b"] {}

/-- C4.  The catalog is queried with the raw query text; zero results
fail the whole record; otherwise the returned record's title, artist,
album, genre, recording year and catalog link come from the top (first)
result. -/
theorem catalog_zero_fails_top_result_fields :
    (∀ env q s resp, env.itunes q = some resp → resp.resultCount = some 0 →
      fetchMetadata env q s = (Except.ok none,
        { s with trace := s.trace ++ [Event.request Service.itunes itunesSearchURL q 1] })) ∧
      (∀ env q s resp rc r rest, env.itunes q = some resp → resp.resultCount = some rc →
        ¬rc = 0 → resp.results = some (r :: rest) →
        ∃ rec s', fetchMetadata env q s = (Except.ok (some rec), s') ∧
          rec.title = itunesTitle r ∧ rec.artist = itunesArtist r ∧
          rec.album = r.collectionName.getD "Unknown Album" ∧
          rec.genre = r.primaryGenreName.getD "Unknown Genre" ∧
          rec.apple_link = r.trackViewUrl.getD "" ∧
          rec.recording_year = itunesRecYear r ∧
          Event.request Service.itunes itunesSearchURL q 1 ∈ s'.trace) := by
  constructor
  · intro env q s resp h₁ h₂
    exact run_fetchMetadata_zero env q s resp h₁ h₂
  · intro env q s resp rc r rest h₁ h₂ h₃ h₄
    obtain ⟨rec, s', heq, _, ht, ha, hal, hg, hap, hr, _, hm⟩ :=
      fetchMetadata_top_fields env q s resp rc r rest h₁ h₂ h₃ h₄
    exact ⟨rec, s', heq, ht, ha, hal, hg, hap, hr, hm⟩

/-- C4 witness. -/
theorem catalog_zero_fails_top_result_fields_witness :
    (fetchMetadata cEnvZero "nothing" {} = (Except.ok none,
      { (({} : St)) with trace := ([] : List Event) ++
        [Event.request Service.itunes itunesSearchURL "nothing" 1] })) ∧
      (∃ rec s', fetchMetadata cEnvYears "Verdi Requiem" {} = (Except.ok (some rec), s') ∧
        rec.title = itunesTitle rYears ∧ rec.artist = itunesArtist rYears ∧
        rec.album = rYears.collectionName.getD "Unknown Album" ∧
        rec.genre = rYears.primaryGenreName.getD "Unknown Genre" ∧
        rec.apple_link = rYears.trackViewUrl.getD "" ∧
        rec.recording_year = itunesRecYear rYears ∧
        Event.request Service.itunes itunesSearchURL "Verdi Requiem" 1 ∈ s'.trace) :=
  ⟨catalog_zero_fails_top_result_fields.1 cEnvZero "nothing" {}
      { resultCount := some 0 } rfl rfl,
    catalog_zero_fails_top_result_fields.2 cEnvYears "Verdi Requiem" {}
      { resultCount := some 1, results := some [rYears] } 1 rYears []
      rfl rfl (by decide) rfl⟩

/-- C5.  The free-text work fallback searches with `limit: 3`; with a
well-behaved endpoint (at most 3 candidates returned) at most three
candidate work-details fetches occur; the answer is the first candidate
whose composer passes the acceptance test, every earlier candidate being
rejected; an accepted composer really passed the test; and the test
holds exactly when the composer name occurs in the artist string or some
name part longer than 3 characters occurs in the original query
(case-insensitively). -/
theorem work_fallback_top3_acceptance
    (env : Env) (artist oq : String) (details : MBWorkHit → MBWorkDetails)
    (wresp : MBWorkSearchResp) (s : St)
    (hS : env.mbWorkSearch oq = some wresp)
    (hW : ∀ w ∈ wresp.works, env.mbWork w.id = some (details w))
    (hlen : wresp.works.length ≤ 3) :
    mbFallback env artist oq s =
      (Except.ok (firstAccepted artist oq
          (wresp.works.map (fun w => composerOf (details w)))),
        { s with trace := s.trace ++
            ([Event.sleep 1200, Event.request Service.mbWorkSearch mbWorkSearchURL oq 3] ++
              fallbackLoopEvents artist oq details wresp.works) }) ∧
      (fallbackLoopEvents artist oq details wresp.works).countP isWorkDetailReq ≤ 3 ∧
      (∀ ans, firstAccepted artist oq
          (wresp.works.map (fun w => composerOf (details w))) = some ans →
        mbFallbackAccepts artist oq ans.composer = true) ∧
      (∀ c, mbFallbackAccepts artist oq c = true ↔
        ((pyTruthyS artist = true ∧
            strContains (pyToLower artist) (pyToLower c) = true) ∨
          ∃ part, part ∈ pySplitWs c ∧ 3 < part.length ∧
            strContains (pyToLower oq) (pyToLower part) = true)) := by
  refine ⟨run_mbFallback env artist oq details wresp s hS hW,
    le_trans (fallbackLoopEvents_count artist oq details wresp.works) hlen,
    fun ans h => firstAccepted_accepts artist oq _ ans h,
    fun c => ?_⟩
  simp [mbFallbackAccepts, List.any_eq_true, Bool.and_eq_true, Bool.or_eq_true,
    decide_eq_true_eq]

/-- C5 witness. -/
theorem work_fallback_top3_acceptance_witness :
    (mbFallback cEnvFallback "Berlin Philharmonic" "Beethoven Symphony No 5" {}).1 =
      Except.ok (some { composer := "Ludwig van Beethoven", year := none }) ∧
      mbFallbackAccepts "Berlin Philharmonic" "Beethoven Symphony No 5"
        "Ludwig van Beethoven" = true := by
  have h := work_fallback_top3_acceptance cEnvFallback "Berlin Philharmonic"
    "Beethoven Symphony No 5" cDetails { works := [{ id := "w1" }, { id := "w2" }] } {}
    rfl
    (fun w hw => by
      rcases List.mem_cons.mp hw with h₁ | hw₂
      · subst h₁; rfl
      · rcases List.mem_cons.mp hw₂ with h₁ | h₁
        · subst h₁; rfl
        · cases h₁)
    (by decide)
  refine ⟨?_, ?_⟩
  · rw [h.1]
    decide
  · exact h.2.2.1 { composer := "Ludwig van Beethoven", year := none } (by decide)

/-- C6.  At most three title variants, headed by the raw (quote-removed)
title; when every variant misses, each one is searched in order with the
`recording:"variant" AND artist:(...)` payload; and a hit on the first
variant short-circuits the whole lookup, with exactly the three paused
requests of that variant in the trace (no later variant queried, no
fallback reached). -/
theorem variant_order_and_short_circuit :
    (∀ title, (titleVariants title).length ≤ 3 ∧
      ∃ ts, titleVariants title = (pyReplace title "\"" "") :: ts) ∧
      (∀ env aq vs s, (∀ v ∈ vs, env.mbRecordingSearch (luceneQuery v aq) =
          some { recordings := [] }) →
        mbTryVariants env aq vs s = (Except.ok none,
          { s with trace := s.trace ++ mbSearchEvents aq vs })) ∧
      (∀ env title artist oq s hit more det wrel wd c,
        ¬artistQueryOf artist = "" →
        env.mbRecordingSearch (luceneQuery (pyReplace title "\"" "")
          (artistQueryOf artist)) = some { recordings := hit :: more } →
        env.mbRecordingDetails hit.id = some det →
        det.relations.find? (fun rel => rel.targetType = some "work") = some wrel →
        env.mbWork wrel.workId = some wd →
        composerOf wd = some c →
        fetchWorkDetailsFromMB env title artist oq s =
          (Except.ok (some { composer := c, year := workYearOf wd }),
            { s with trace := s.trace ++
              [Event.sleep 1200,
               Event.request Service.mbRecordingSearch mbRecordingSearchURL
                 (luceneQuery (pyReplace title "\"" "") (artistQueryOf artist)) 1,
               Event.sleep 1200,
               Event.request Service.mbRecordingDetails (mbRecordingDetailsURL hit.id) "" 0,
               Event.sleep 1200,
               Event.request Service.mbWork (mbWorkURL wrel.workId) "" 0] })) :=
  ⟨fun title => ⟨titleVariants_length_le title, titleVariants_eq_cons title⟩,
    fun env aq vs s h => run_mbTryVariants_noHits env aq vs s h,
    fun env title artist oq s hit more det wrel wd c h₁ h₂ h₃ h₄ h₅ h₆ =>
      run_fetchWorkDetailsFromMB_firstHit env title artist oq s hit more det wrel wd c
        h₁ h₂ h₃ h₄ h₅ h₆⟩

/-- C6 witness. -/
theorem variant_order_and_short_circuit_witness :
    ((titleVariants "Handel: Giulio Cesare (Live)").length ≤ 3 ∧
      ∃ ts, titleVariants "Handel: Giulio Cesare (Live)" =
        (pyReplace "Handel: Giulio Cesare (Live)" "\"" "") :: ts) ∧
      mbTryVariants cEnvComposer "A" ["x", "y"] {} = (Except.ok none,
        { ({} : St) with trace := ({} : St).trace ++ mbSearchEvents "A" ["x", "y"] }) ∧
      fetchWorkDetailsFromMB cEnvYears "Requiem" "Anna Netrebko"
          (some "Verdi Requiem") {} =
        (Except.ok (some { composer := "Giuseppe Verdi", year := some "2020" }),
          { ({} : St) with trace := ({} : St).trace ++
            [Event.sleep 1200,
             Event.request Service.mbRecordingSearch mbRecordingSearchURL
               (luceneQuery (pyReplace "Requiem" "\"" "")
                 (artistQueryOf "Anna Netrebko")) 1,
             Event.sleep 1200,
             Event.request Service.mbRecordingDetails (mbRecordingDetailsURL "rec1") "" 0,
             Event.sleep 1200,
             Event.request Service.mbWork (mbWorkURL "w1") "" 0] }) :=
  ⟨variant_order_and_short_circuit.1 "Handel: Giulio Cesare (Live)",
    variant_order_and_short_circuit.2.1 cEnvComposer "A" ["x", "y"] {}
      (fun _ _ => rfl),
    variant_order_and_short_circuit.2.2 cEnvYears "Requiem" "Anna Netrebko"
      (some "Verdi Requiem") {} { id := "rec1" } []
      { relations := [{ targetType := some "work", workId := "w1" }] }
      { targetType := some "work", workId := "w1" }
      { relations := [{ relType := some "composer", artistName := "Giuseppe Verdi" }], lifeSpanBegin := some "2020-05-05" }
      "Giuseppe Verdi" (by decide) rfl rfl rfl rfl rfl⟩

/-- `extract_year` returns a nonempty all-digit string of at most 4
characters. -/
theorem extractYear_shape (claims : List (String × List Snak)) (prop : String)
    (y : String) (h : extractYear claims prop = some y) :
    y.length ≤ 4 ∧ ¬y = "" ∧ y.toList.all Char.isDigit = true := by
  rcases h₁ : lookupKey claims prop with _ | snaks
  · simp [extractYear, h₁] at h
  · cases snaks with
    | nil => simp [extractYear, h₁] at h
    | cons snak rest =>
      rcases h₂ : snak.time with _ | t
      · simp [extractYear, h₁, h₂] at h
      · simp only [extractYear, h₁, h₂] at h
        split at h
        · rw [Option.some.injEq] at h
          subst h
          rename_i hcond
          rw [Bool.and_eq_true, decide_eq_true_eq] at hcond
          obtain ⟨hne, hdig⟩ := hcond
          refine ⟨?_, ?_, ?_⟩
          · have hl : (String.mk (((t.toList.dropWhile (fun c => c = '+')).dropWhile
                (fun c => c = '-')).take 4)).length =
                (((t.toList.dropWhile (fun c => c = '+')).dropWhile
                  (fun c => c = '-')).take 4).length := rfl
            rw [hl]
            exact List.length_take_le 4 _
          · intro hc
            exact hne (congrArg String.data hc)
          · exact hdig
        · cases h

/-- C7.  Composition-year resolution: when the MusicBrainz stage already
carries a (truthy) year — a performance-relation date or the work's
life-span begin — that year is kept and the final state is exactly the
post-MusicBrainz state (the knowledge-graph fallback issues no request).
When the MusicBrainz stage has no year, the Wikipedia/Wikidata chain
runs: the entity's P571 (inception) property is read first, P577
(publication date) second.  The page chosen by the scoring sort
maximizes `score_page` over the result pages, and any extracted year is
a nonempty digit string of at most 4 characters. -/
theorem composition_year_resolution
    (env : Env) (q : String) (s : St) (resp : ItunesResponse) (rc : Int)
    (r : ItunesResult) (rest : List ItunesResult)
    (mbv : Option MBComposerYear) (s₂ : St)
    (h₁ : env.itunes q = some resp) (h₂ : resp.resultCount = some rc) (h₃ : ¬rc = 0)
    (h₄ : resp.results = some (r :: rest))
    (hskip : (pyTruthyS env.spotifyClientId &&
      env.spotifyClientId ≠ "YOUR_SPOTIFY_CLIENT_ID") = false)
    (hmb : fetchWorkDetailsFromMB env (itunesTitle r) (itunesArtist r) (some q)
        { s with trace := s.trace ++ [Event.request Service.itunes itunesSearchURL q 1] } =
        (Except.ok mbv, s₂)) :
    (pyTruthyO (mbYearOf mbv) = true →
      ∃ rec, fetchMetadata env q s = (Except.ok (some rec), s₂) ∧
        rec.composition_year = (mbYearOf mbv).getD "") ∧
      (pyTruthyO (mbYearOf mbv) = false →
        ∀ sq cl p₀ prest bp wt props pr eid entResp ent,
          ¬itunesTitle r = "" →
          sq = (if pyTruthyS (wikiComposerArg r mbv) = true
                then wikiComposerArg r mbv ++ " " ++ itunesTitle r else itunesTitle r) →
          cl = (if pyTruthyS (wikiComposerArg r mbv) = true
                then some (pyToLower (wikiComposerArg r mbv)) else none) →
          env.wikiSearch sq = some { pages := p₀ :: prest } →
          bestPageOf cl (p₀ :: prest) = bp →
          pyTruthyO bp.key = true →
          wt = pyReplace (bp.key.getD "") "_" " " →
          env.wikiPageProps wt = some props →
          props.find? (fun p => pyTruthyO p.2.wikibaseItem) = some pr →
          eid = pr.2.wikibaseItem.getD "" →
          env.wdEntity eid = some entResp →
          entResp.entities.find? (fun e => e.1 = eid) = some ent →
          ∃ rec, fetchMetadata env q s = (Except.ok (some rec),
              { s₂ with trace := s₂.trace ++
                [Event.sleep 1000, Event.request Service.wikiSearch wikiSearchURL sq 5,
                 Event.sleep 1000, Event.request Service.wikiProps wikiApiURL wt 0,
                 Event.sleep 1000,
                 Event.request Service.wdEntity (wdEntityURL eid) "" 0] }) ∧
            rec.composition_year = (match extractYear ent.2.claims "P571" with
              | some y => some y
              | none => extractYear ent.2.claims "P577").getD "") ∧
      (∀ cl pages, pages ≠ ([] : List WikiPage) → bestPageOf cl pages ∈ pages ∧
        ∀ p ∈ pages, scorePage cl p ≤ scorePage cl (bestPageOf cl pages)) ∧
      (∀ claims prop y, extractYear claims prop = some y →
        y.length ≤ 4 ∧ ¬y = "" ∧ y.toList.all Char.isDigit = true) := by
  refine ⟨?_, ?_, fun cl pages h => bestPageOf_max cl pages h,
    fun claims prop y h => extractYear_shape claims prop y h⟩
  · intro hyear
    have hcy : (if (!pyTruthyO (mbYearOf mbv)) = true then
        fetchCompositionYearFromWikidata env (itunesTitle r) (wikiComposerArg r mbv)
        else pure (mbYearOf mbv)) s₂ = (Except.ok (mbYearOf mbv), s₂) := by
      rw [hyear]
      simp [pure_apply]
    exact ⟨_, run_fetchMetadata_noSpotify env q s resp rc r rest mbv s₂ (mbYearOf mbv) s₂
      h₁ h₂ h₃ h₄ hskip hmb hcy, rfl⟩
  · intro hyear sq cl p₀ prest bp wt props pr eid entResp ent
      htitle hsq hcl hsearch hbp hkey hwt hprops hfind heid hent hfind2
    have hwiki := run_fetchCompositionYearFromWikidata_full env (itunesTitle r)
      (wikiComposerArg r mbv) s₂ sq cl p₀ prest bp wt props pr eid entResp ent
      htitle hsq hcl hsearch hbp hkey hwt hprops hfind heid hent hfind2
    have hcy : (if (!pyTruthyO (mbYearOf mbv)) = true then
        fetchCompositionYearFromWikidata env (itunesTitle r) (wikiComposerArg r mbv)
        else pure (mbYearOf mbv)) s₂ =
        (Except.ok (match extractYear ent.2.claims "P571" with
          | some y => some y
          | none => extractYear ent.2.claims "P577"),
         { s₂ with trace := s₂.trace ++
            [Event.sleep 1000, Event.request Service.wikiSearch wikiSearchURL sq 5,
             Event.sleep 1000, Event.request Service.wikiProps wikiApiURL wt 0,
             Event.sleep 1000,
             Event.request Service.wdEntity (wdEntityURL eid) "" 0] }) := by
      rw [hyear]
      simpa using hwiki
    exact ⟨_, run_fetchMetadata_noSpotify env q s resp rc r rest mbv s₂ _ _
      h₁ h₂ h₃ h₄ hskip hmb hcy, rfl⟩

/-- C7 witness. -/
theorem composition_year_resolution_witness :
    ∃ rec, (fetchMetadata cEnvWiki "Nixon in China" {}).1 = Except.ok (some rec) ∧
      rec.composition_year = "1987" := by
  have h := composition_year_resolution cEnvWiki "Nixon in China" {}
    { resultCount := some 1, results := some [rChina] } 1 rChina [] none
    { trace := [Event.request Service.itunes itunesSearchURL "Nixon in China" 1,
        Event.sleep 1200,
        Event.request Service.mbRecordingSearch mbRecordingSearchURL
          (luceneQuery "Nixon in China" (artistQueryOf "Orchestra X")) 1,
        Event.sleep 1200,
        Event.request Service.mbWorkSearch mbWorkSearchURL "Nixon in China" 3] }
    rfl rfl (by decide) rfl (by decide) (by decide)
  obtain ⟨rec, hrec, hyr⟩ := h.2.1 (by decide) "Orchestra X Nixon in China"
    (some "orchestra x") pageOpera [pageOther] pageOpera "Nixon in China"
    [("8157", { wikibaseItem := some "Q1058294" })]
    ("8157", { wikibaseItem := some "Q1058294" }) "Q1058294"
    { entities := [("Q1058294", { claims := [("P571", [{ time := some "+1987-01-01T00:00:00Z" }])] })] }
    ("Q1058294", { claims := [("P571", [{ time := some "+1987-01-01T00:00:00Z" }])] })
    (by decide) (by decide) (by decide) rfl (by decide) (by decide) (by decide) rfl
    (by decide) (by decide) rfl (by decide)
  refine ⟨rec, ?_, ?_⟩
  · rw [hrec]
  · rw [hyr]
    decide

/-- C8 (counterexample).  On a full `fetch_metadata` run the trace does
contain HTTP requests, yet not every request is preceded by a 1–1.2 s
pause: the catalog request (and the Spotify requests, were they
configured) is issued with no pause at all. -/
theorem request_without_preceding_pause :
    allPausedOK ((fetchMetadata cEnvYears "Verdi Requiem" {}).2.trace) = false ∧
      ((fetchMetadata cEnvYears "Verdi Requiem" {}).2.trace.any isRequest) = true := by
  refine ⟨by decide, by decide⟩

/-- C8 (amended).  Every MusicBrainz / Wikipedia / Wikidata request is
immediately preceded by a pause of 1.0 or 1.2 seconds; the catalog
request carries no pause and is the very first event of the run. -/
theorem mb_wiki_requests_paused_catalog_not (env : Env) (q : String) (s : St)
    (hempty : s.trace = []) :
    pausedOK ((fetchMetadata env q s).2.trace) = true ∧
      ∃ Δ, ((fetchMetadata env q s).2).trace =
        Event.request Service.itunes itunesSearchURL q 1 :: Δ := by
  obtain ⟨Δ, hΔ, hp⟩ := ts_fetchMetadata env q s
  constructor
  · rw [hΔ, hempty]
    simpa [pausedOK] using hp none
  · obtain ⟨Δ₂, hΔ₂⟩ := fetchMetadata_first_event env q s
    rw [hΔ₂, hempty]
    exact ⟨Δ₂, rfl⟩

/-- C8 witness. -/
theorem mb_wiki_requests_paused_catalog_not_witness :
    pausedOK ((fetchMetadata cEnvYears "Verdi Requiem" {}).2.trace) = true ∧
      ∃ Δ, ((fetchMetadata cEnvYears "Verdi Requiem" {}).2).trace =
        Event.request Service.itunes itunesSearchURL "Verdi Requiem" 1 :: Δ :=
  mb_wiki_requests_paused_catalog_not cEnvYears "Verdi Requiem" {} rfl

/-- The all-defaults record resolved for a catalog top result with every
optional field absent and no other source answering. -/
def defaultsRec (q : String) : TrackRecord :=
  { query := q, title := "Unknown Title", artist := "Unknown Artist",
    composer := "Unknown Composer", album := "Unknown Album", year := "Unknown",
    recording_year := "Unknown", composition_year := "", genre := "Unknown Genre",
    apple_link := "", spotify_link := "" }

/-- C9.  A top catalog result with every optional field absent, no
MusicBrainz answer, no wiki pages and Spotify unconfigured still
resolves (no failure): composer defaults to "Unknown Composer",
recording year to "Unknown", composition year to the empty string, and
title / artist / album / genre to their "Unknown ..." sentinels. -/
theorem missing_fields_default_not_fail
    (env : Env) (q : String) (s : St) (resp : ItunesResponse) (rc : Int)
    (r : ItunesResult) (rest : List ItunesResult)
    (h₁ : env.itunes q = some resp) (h₂ : resp.resultCount = some rc) (h₃ : ¬rc = 0)
    (h₄ : resp.results = some (r :: rest))
    (hskip : (pyTruthyS env.spotifyClientId &&
      env.spotifyClientId ≠ "YOUR_SPOTIFY_CLIENT_ID") = false)
    (htn : r.trackName = none) (han : r.artistName = none)
    (hcn : r.collectionName = none) (hgn : r.primaryGenreName = none)
    (hrd : r.releaseDate = none) (hcp : r.composer = none)
    (htv : r.trackViewUrl = none)
    (hR : ∀ q', env.mbRecordingSearch q' = some { recordings := [] })
    (hWS : ∀ q', env.mbWorkSearch q' = some { works := [] })
    (hWiki : ∀ q', env.wikiSearch q' = some { pages := [] }) :
    ∃ s', fetchMetadata env q s = (Except.ok (some (defaultsRec q)), s') := by
  obtain ⟨s₂, hmb⟩ := val_fetchWorkDetailsFromMB_none env (itunesTitle r)
    (itunesArtist r) (some q)
    { s with trace := s.trace ++ [Event.request Service.itunes itunesSearchURL q 1] }
    hR hWS
  obtain ⟨s₃, hwk⟩ := val_fetchCompositionYearFromWikidata_none env (itunesTitle r)
    (wikiComposerArg r none) s₂ hWiki
  have hcy : (if (!pyTruthyO (mbYearOf (none : Option MBComposerYear))) = true then
      fetchCompositionYearFromWikidata env (itunesTitle r) (wikiComposerArg r none)
      else pure (mbYearOf (none : Option MBComposerYear))) s₂ =
      (Except.ok none, s₃) := hwk
  have heq := run_fetchMetadata_noSpotify env q s resp rc r rest none s₂ none s₃
    h₁ h₂ h₃ h₄ hskip hmb hcy
  refine ⟨s₃, ?_⟩
  rw [heq]
  simp [defaultsRec, itunesTitle, itunesArtist, itunesRecYear, mergeComposer,
    pyTruthyO, htn, han, hcn, hgn, hrd, hcp, htv]

/-- C9 witness. -/
theorem missing_fields_default_not_fail_witness :
    ∃ s', fetchMetadata cEnvDefaults "mystery track" {} =
      (Except.ok (some (defaultsRec "mystery track")), s') :=
  missing_fields_default_not_fail cEnvDefaults "mystery track" {}
    { resultCount := some 2, results := some [{}] } 2 {} []
    rfl rfl (by decide) rfl (by decide) rfl rfl rfl rfl rfl rfl rfl
    (fun _ => rfl) (fun _ => rfl) (fun _ => rfl)

/-- C10.  A successful `fetch_all` run keeps the records of exactly the
queries that resolved, in input order (so never more records than
queries), and each record's `query` field is its own input query
unchanged, the record being that query's successful resolution. -/
theorem fetchAll_order_and_queries (env : Env) (qs : List String) (s : St)
    (rs : List TrackRecord) (s' : St)
    (h : fetchAll env qs s = (Except.ok rs, s')) :
    (rs.map (fun r => r.query)).Sublist qs ∧ rs.length ≤ qs.length ∧
      ∀ r ∈ rs, ∃ s₁ s₂, fetchMetadata env r.query s₁ = (Except.ok (some r), s₂) := by
  obtain ⟨hsub, hmem⟩ := fetchAll_shape env qs s rs s' h
  exact ⟨hsub, by simpa using hsub.length_le, hmem⟩

/-- Catalog that resolves only the query "good". -/
def cEnvMixed : Env :=
  { itunes := fun q => if q = "good"
      then some { resultCount := some 1, results := some [{}] }
      else some { resultCount := some 0 }
    mbRecordingSearch := fun _ => some { recordings := [] }
    mbRecordingDetails := fun _ => none
    mbWork := fun _ => none
    mbWorkSearch := fun _ => some { works := [] }
    wikiSearch := fun _ => some { pages := [] }
    wikiPageProps := fun _ => none
    wdEntity := fun _ => none }

/-- C10 witness. -/
theorem fetchAll_order_and_queries_witness :
    (fetchAll cEnvMixed ["good", "bad"] {}).1 = Except.ok [defaultsRec "good"] ∧
      (([defaultsRec "good"] : List TrackRecord).map (fun r => r.query)).Sublist
        ["good", "bad"] ∧
      ([defaultsRec "good"] : List TrackRecord).length ≤
        (["good", "bad"] : List String).length := by
  have h := fetchAll_order_and_queries cEnvMixed ["good", "bad"] {}
    [defaultsRec "good"] (fetchAll cEnvMixed ["good", "bad"] {}).2 (by decide)
  exact ⟨by decide, h.1, h.2.1⟩

end Flexster
